import Mathlib

/-!
# RSA portability wrappers of `openssl_port_rsa.c`

A shallow embedding of the three adapter functions of
`src/crypto/internal/boring/openssl_port_rsa.c`:

* `_goboringcrypto_RSA_generate_key_fips`
* `_goboringcrypto_RSA_sign_pss_mgf1`
* `_goboringcrypto_RSA_verify_pss_mgf1`

The functions only sequence calls into the cryptographic provider.  The
provider is therefore a parameter: a record `Provider σ` of primitives acting
on an arbitrary provider state `σ` (explicit state passing), so that a
statement proved for every `Provider σ` and every state holds for every
behaviour of the primitives.  Every call of a primitive is also logged, with
its arguments and its result, in a trace of `Event`s, so that statements about
which primitive is invoked, in which order and with which arguments are
statements about the code.

Conventions:

* pointers and handles are natural numbers, `NULL` is `0`;
* C `int` values are `Int`;
* the `size_t` local `siglen` is a natural number (`size_t` has 64 bits on the
  LP64 Linux targets of the package); the store into the `unsigned int`
  `*out_len` reduces it modulo `2 ^ 32`;
* a byte buffer is the list of its bytes; a `uint8_t *` argument that may be
  `NULL` is an `Option` of the buffer contents.

The file is organised as: the embedding, the vocabulary for traces, concrete
providers for running the functions, the exits of the two PSS operations, and
then the properties of key generation, signing, verification, handle release
and the configuration sequence.
-/

namespace OpensslPortRsa

/-- A pointer or handle of the provider (`BIGNUM *`, `RSA *`, `EVP_PKEY *`,
`EVP_PKEY_CTX *`, `EVP_MD *`, `BN_GENCB *`, `ENGINE *`). -/
abbrev Ptr := Nat

/-- Contents of a byte buffer (`uint8_t *`). -/
abbrev Buf := List Nat

/-- The null pointer. -/
def NULL : Ptr := 0

/-- Modelled from the spec: the macro `RSA_F4` of the provider header
`openssl/rsa.h`, which is not part of the source file; the spec and the
comment on line 13 of the source give the fixed public exponent as 65537. -/
def RSA_F4 : Nat := 65537

/-- Modelled from the spec: the macro `RSA_PKCS1_PSS_PADDING` of the provider
header `openssl/rsa.h`, which is not part of the source file; the spec names it
"padding = PSS".  Its numeric value (6 in the provider header) plays no role
in any statement below. -/
def RSA_PKCS1_PSS_PADDING : Int := 6

/-- Number of values of the C type `unsigned int` (32 bits). -/
def UINT_RANGE : Nat := 2 ^ 32

/-- The provider primitives called by the source file, as state transformers on
an arbitrary provider state `σ`.  Each field is the primitive of the same name
with the prefix `_goboringcrypto_` (or `_goboringcrypto_internal_`) dropped.

`EVP_PKEY_sign s ctx sig siglen tbs tbslen` returns the `int` result, the value
it leaves in `*siglen`, and the contents it leaves in the buffer `sig` points
to (meaningful only when `sig` is not `NULL`). -/
structure Provider (σ : Type) where
  BN_new : σ → Ptr × σ
  BN_set_word : σ → Ptr → Nat → Int × σ
  RSA_generate_key_ex : σ → Ptr → Int → Ptr → Ptr → Int × σ
  BN_free : σ → Ptr → σ
  EVP_PKEY_new : σ → Ptr × σ
  EVP_PKEY_set1_RSA : σ → Ptr → Ptr → Int × σ
  EVP_PKEY_CTX_new : σ → Ptr → Ptr → Ptr × σ
  EVP_PKEY_sign_init : σ → Ptr → Int × σ
  EVP_PKEY_verify_init : σ → Ptr → Int × σ
  EVP_PKEY_CTX_set_rsa_padding : σ → Ptr → Int → Int × σ
  EVP_PKEY_CTX_set_rsa_pss_saltlen : σ → Ptr → Int → Int × σ
  EVP_PKEY_CTX_set_signature_md : σ → Ptr → Ptr → Int × σ
  EVP_PKEY_CTX_set_rsa_mgf1_md : σ → Ptr → Ptr → Int × σ
  EVP_PKEY_sign : σ → Ptr → Option Buf → Nat → Buf → Nat → (Int × Nat × Buf) × σ
  EVP_PKEY_verify : σ → Ptr → Buf → Nat → Buf → Nat → Int × σ
  EVP_PKEY_CTX_free : σ → Ptr → σ

/-- One call of a provider primitive: its arguments followed by its result.
`EVP_PKEY_free` and `RSA_free` are the provider's release functions for wrapped
keys and RSA keys; the source file never calls them, so no function below ever
logs them. -/
inductive Event where
  | BN_new (ret : Ptr)
  | BN_set_word (e : Ptr) (w : Nat) (ret : Int)
  | RSA_generate_key_ex (rsa : Ptr) (size : Int) (e : Ptr) (cb : Ptr) (ret : Int)
  | BN_free (e : Ptr)
  | EVP_PKEY_new (ret : Ptr)
  | EVP_PKEY_set1_RSA (pkey : Ptr) (rsa : Ptr) (ret : Int)
  | EVP_PKEY_CTX_new (pkey : Ptr) (engine : Ptr) (ret : Ptr)
  | EVP_PKEY_sign_init (ctx : Ptr) (ret : Int)
  | EVP_PKEY_verify_init (ctx : Ptr) (ret : Int)
  | EVP_PKEY_CTX_set_rsa_padding (ctx : Ptr) (pad : Int) (ret : Int)
  | EVP_PKEY_CTX_set_rsa_pss_saltlen (ctx : Ptr) (salt_len : Int) (ret : Int)
  | EVP_PKEY_CTX_set_signature_md (ctx : Ptr) (md : Ptr) (ret : Int)
  | EVP_PKEY_CTX_set_rsa_mgf1_md (ctx : Ptr) (md : Ptr) (ret : Int)
  | EVP_PKEY_sign (ctx : Ptr) (sig : Option Buf) (siglen : Nat) (tbs : Buf) (tbslen : Nat)
      (ret : Int) (siglen_out : Nat) (sig_out : Buf)
  | EVP_PKEY_verify (ctx : Ptr) (sig : Buf) (siglen : Nat) (tbs : Buf) (tbslen : Nat) (ret : Int)
  | EVP_PKEY_CTX_free (ctx : Ptr)
  | EVP_PKEY_free (pkey : Ptr)
  | RSA_free (rsa : Ptr)
  deriving DecidableEq, Repr

/-- Outcome of `_goboringcrypto_RSA_generate_key_fips`: the `int` returned, the
calls made, and the provider state left behind. -/
structure GenResult (σ : Type) where
  ret : Int
  trace : List Event
  st : σ

/-- Embedding of `_goboringcrypto_RSA_generate_key_fips` (source lines 11-20).
The C expression `a && b` evaluates `b` only when `a` is nonzero and yields
`1` when both are nonzero, `0` otherwise. -/
def _goboringcrypto_RSA_generate_key_fips {σ : Type} (P : Provider σ) (s0 : σ)
    (rsa : Ptr) (size : Int) (cb : Ptr) : GenResult σ :=
  -- BIGNUM *e = _goboringcrypto_BN_new();
  let c1 := P.BN_new s0
  let e := c1.1
  let t1 := [Event.BN_new e]
  -- if (e == NULL) return 0;
  if e = NULL then ⟨0, t1, c1.2⟩ else
  -- int ret = BN_set_word(e, RSA_F4) && RSA_generate_key_ex(rsa, size, e, cb);
  let c2 := P.BN_set_word c1.2 e RSA_F4
  let t2 := t1 ++ [Event.BN_set_word e RSA_F4 c2.1]
  if c2.1 ≠ 0 then
    let c3 := P.RSA_generate_key_ex c2.2 rsa size e cb
    let t3 := t2 ++ [Event.RSA_generate_key_ex rsa size e cb c3.1]
    let ret : Int := if c3.1 ≠ 0 then 1 else 0
    -- _goboringcrypto_BN_free(e); return ret;
    ⟨ret, t3 ++ [Event.BN_free e], P.BN_free c3.2 e⟩
  else
    -- _goboringcrypto_BN_free(e); return ret;
    ⟨0, t2 ++ [Event.BN_free e], P.BN_free c2.2 e⟩

/-- Outcome of `_goboringcrypto_RSA_sign_pss_mgf1`: the `int` returned, the
contents of `*out_len` and of the buffer `out` at return, the calls made, and
the provider state left behind. -/
structure SignResult (σ : Type) where
  ret : Int
  out_len : Nat
  out : Buf
  trace : List Event
  st : σ

/-- Embedding of `_goboringcrypto_RSA_sign_pss_mgf1` (source lines 22-69).

`out_len` and `out` are the contents of `*out_len` and of the caller's buffer
before the call, `in_` is the parameter `in` of the source, and `siglen0` is
the indeterminate value of the uninitialised local `siglen`.  The first call of
`EVP_PKEY_sign` receives `NULL` for its output pointer, so whatever buffer
contents the primitive reports there are not stored anywhere; the second call
receives the caller's buffer, whose contents after the call are those the
primitive leaves. -/
def _goboringcrypto_RSA_sign_pss_mgf1 {σ : Type} (P : Provider σ) (s0 : σ)
    (rsa : Ptr) (out_len : Nat) (out : Buf) (max_out : Nat)
    (in_ : Buf) (in_len : Nat) (md : Ptr) (mgf1_md : Ptr) (salt_len : Int)
    (siglen0 : Nat) : SignResult σ :=
  -- pkey = _goboringcrypto_EVP_PKEY_new(); if (!pkey) return 0;
  let c1 := P.EVP_PKEY_new s0
  let pkey := c1.1
  let t1 := [Event.EVP_PKEY_new pkey]
  if pkey = NULL then ⟨0, out_len, out, t1, c1.2⟩ else
  -- if (_goboringcrypto_EVP_PKEY_set1_RSA(pkey, rsa) <= 0) return 0;
  let c2 := P.EVP_PKEY_set1_RSA c1.2 pkey rsa
  let t2 := t1 ++ [Event.EVP_PKEY_set1_RSA pkey rsa c2.1]
  if c2.1 ≤ 0 then ⟨0, out_len, out, t2, c2.2⟩ else
  -- ctx = _goboringcrypto_EVP_PKEY_CTX_new(pkey, NULL); if (!ctx) return 0;
  let c3 := P.EVP_PKEY_CTX_new c2.2 pkey NULL
  let ctx := c3.1
  let t3 := t2 ++ [Event.EVP_PKEY_CTX_new pkey NULL ctx]
  if ctx = NULL then ⟨0, out_len, out, t3, c3.2⟩ else
  -- err: _goboringcrypto_EVP_PKEY_CTX_free(ctx); return ret;
  let err := fun (ret : Int) (out_len : Nat) (out : Buf) (t : List Event) (s : σ) =>
    SignResult.mk ret out_len out (t ++ [Event.EVP_PKEY_CTX_free ctx]) (P.EVP_PKEY_CTX_free s ctx)
  -- int ret = 0;
  -- if (_goboringcrypto_internal_EVP_PKEY_sign_init(ctx) <= 0) goto err;
  let c4 := P.EVP_PKEY_sign_init c3.2 ctx
  let t4 := t3 ++ [Event.EVP_PKEY_sign_init ctx c4.1]
  if c4.1 ≤ 0 then err 0 out_len out t4 c4.2 else
  -- if (_goboringcrypto_EVP_PKEY_CTX_set_rsa_padding(ctx, RSA_PKCS1_PSS_PADDING) <= 0) goto err;
  let c5 := P.EVP_PKEY_CTX_set_rsa_padding c4.2 ctx RSA_PKCS1_PSS_PADDING
  let t5 := t4 ++ [Event.EVP_PKEY_CTX_set_rsa_padding ctx RSA_PKCS1_PSS_PADDING c5.1]
  if c5.1 ≤ 0 then err 0 out_len out t5 c5.2 else
  -- if (_goboringcrypto_EVP_PKEY_CTX_set_rsa_pss_saltlen(ctx, salt_len) <= 0) goto err;
  let c6 := P.EVP_PKEY_CTX_set_rsa_pss_saltlen c5.2 ctx salt_len
  let t6 := t5 ++ [Event.EVP_PKEY_CTX_set_rsa_pss_saltlen ctx salt_len c6.1]
  if c6.1 ≤ 0 then err 0 out_len out t6 c6.2 else
  -- if (_goboringcrypto_internal_EVP_PKEY_CTX_set_signature_md(ctx, md) <= 0) goto err;
  let c7 := P.EVP_PKEY_CTX_set_signature_md c6.2 ctx md
  let t7 := t6 ++ [Event.EVP_PKEY_CTX_set_signature_md ctx md c7.1]
  if c7.1 ≤ 0 then err 0 out_len out t7 c7.2 else
  -- if (_goboringcrypto_EVP_PKEY_CTX_set_rsa_mgf1_md(ctx, mgf1_md) <= 0) goto err;
  let c8 := P.EVP_PKEY_CTX_set_rsa_mgf1_md c7.2 ctx mgf1_md
  let t8 := t7 ++ [Event.EVP_PKEY_CTX_set_rsa_mgf1_md ctx mgf1_md c8.1]
  if c8.1 ≤ 0 then err 0 out_len out t8 c8.2 else
  -- if (_goboringcrypto_internal_EVP_PKEY_sign(ctx, NULL, &siglen, in, in_len) <= 0) goto err;
  let c9 := P.EVP_PKEY_sign c8.2 ctx none siglen0 in_ in_len
  let siglen := c9.1.2.1
  let t9 := t8 ++ [Event.EVP_PKEY_sign ctx none siglen0 in_ in_len c9.1.1 siglen c9.1.2.2]
  if c9.1.1 ≤ 0 then err 0 out_len out t9 c9.2 else
  -- if (max_out < siglen) goto err;
  if max_out < siglen then err 0 out_len out t9 c9.2 else
  -- if (_goboringcrypto_internal_EVP_PKEY_sign(ctx, out, &siglen, in, in_len) <= 0) goto err;
  let c10 := P.EVP_PKEY_sign c9.2 ctx (some out) siglen in_ in_len
  let t10 := t9 ++ [Event.EVP_PKEY_sign ctx (some out) siglen in_ in_len c10.1.1 c10.1.2.1
      c10.1.2.2]
  let siglen := c10.1.2.1
  let out := c10.1.2.2
  if c10.1.1 ≤ 0 then err 0 out_len out t10 c10.2 else
  -- *out_len = siglen; ret = 1;
  err 1 (siglen % UINT_RANGE) out t10 c10.2

/-- Outcome of `_goboringcrypto_RSA_verify_pss_mgf1`: the `int` returned, the
calls made, and the provider state left behind. -/
structure VerifyResult (σ : Type) where
  ret : Int
  trace : List Event
  st : σ

/-- Embedding of `_goboringcrypto_RSA_verify_pss_mgf1` (source lines 71-108). -/
def _goboringcrypto_RSA_verify_pss_mgf1 {σ : Type} (P : Provider σ) (s0 : σ)
    (rsa : Ptr) (msg : Buf) (msg_len : Nat) (md : Ptr) (mgf1_md : Ptr) (salt_len : Int)
    (sig : Buf) (sig_len : Nat) : VerifyResult σ :=
  -- int ret = 0;
  -- pkey = _goboringcrypto_EVP_PKEY_new(); if (!pkey) return 0;
  let c1 := P.EVP_PKEY_new s0
  let pkey := c1.1
  let t1 := [Event.EVP_PKEY_new pkey]
  if pkey = NULL then ⟨0, t1, c1.2⟩ else
  -- if (_goboringcrypto_EVP_PKEY_set1_RSA(pkey, rsa) <= 0) return 0;
  let c2 := P.EVP_PKEY_set1_RSA c1.2 pkey rsa
  let t2 := t1 ++ [Event.EVP_PKEY_set1_RSA pkey rsa c2.1]
  if c2.1 ≤ 0 then ⟨0, t2, c2.2⟩ else
  -- ctx = _goboringcrypto_EVP_PKEY_CTX_new(pkey, NULL); if (!ctx) return 0;
  let c3 := P.EVP_PKEY_CTX_new c2.2 pkey NULL
  let ctx := c3.1
  let t3 := t2 ++ [Event.EVP_PKEY_CTX_new pkey NULL ctx]
  if ctx = NULL then ⟨0, t3, c3.2⟩ else
  -- err: _goboringcrypto_EVP_PKEY_CTX_free(ctx); return ret;
  let err := fun (ret : Int) (t : List Event) (s : σ) =>
    VerifyResult.mk ret (t ++ [Event.EVP_PKEY_CTX_free ctx]) (P.EVP_PKEY_CTX_free s ctx)
  -- if (_goboringcrypto_internal_EVP_PKEY_verify_init(ctx) <= 0) goto err;
  let c4 := P.EVP_PKEY_verify_init c3.2 ctx
  let t4 := t3 ++ [Event.EVP_PKEY_verify_init ctx c4.1]
  if c4.1 ≤ 0 then err 0 t4 c4.2 else
  -- if (_goboringcrypto_EVP_PKEY_CTX_set_rsa_padding(ctx, RSA_PKCS1_PSS_PADDING) <= 0) goto err;
  let c5 := P.EVP_PKEY_CTX_set_rsa_padding c4.2 ctx RSA_PKCS1_PSS_PADDING
  let t5 := t4 ++ [Event.EVP_PKEY_CTX_set_rsa_padding ctx RSA_PKCS1_PSS_PADDING c5.1]
  if c5.1 ≤ 0 then err 0 t5 c5.2 else
  -- if (_goboringcrypto_EVP_PKEY_CTX_set_rsa_pss_saltlen(ctx, salt_len) <= 0) goto err;
  let c6 := P.EVP_PKEY_CTX_set_rsa_pss_saltlen c5.2 ctx salt_len
  let t6 := t5 ++ [Event.EVP_PKEY_CTX_set_rsa_pss_saltlen ctx salt_len c6.1]
  if c6.1 ≤ 0 then err 0 t6 c6.2 else
  -- if (_goboringcrypto_internal_EVP_PKEY_CTX_set_signature_md(ctx, md) <= 0) goto err;
  let c7 := P.EVP_PKEY_CTX_set_signature_md c6.2 ctx md
  let t7 := t6 ++ [Event.EVP_PKEY_CTX_set_signature_md ctx md c7.1]
  if c7.1 ≤ 0 then err 0 t7 c7.2 else
  -- if (_goboringcrypto_EVP_PKEY_CTX_set_rsa_mgf1_md(ctx, mgf1_md) <= 0) goto err;
  let c8 := P.EVP_PKEY_CTX_set_rsa_mgf1_md c7.2 ctx mgf1_md
  let t8 := t7 ++ [Event.EVP_PKEY_CTX_set_rsa_mgf1_md ctx mgf1_md c8.1]
  if c8.1 ≤ 0 then err 0 t8 c8.2 else
  -- if (_goboringcrypto_internal_EVP_PKEY_verify(ctx, sig, sig_len, msg, msg_len) <= 0) goto err;
  let c9 := P.EVP_PKEY_verify c8.2 ctx sig sig_len msg msg_len
  let t9 := t8 ++ [Event.EVP_PKEY_verify ctx sig sig_len msg msg_len c9.1]
  if c9.1 ≤ 0 then err 0 t9 c9.2 else
  -- ret = 1;
  err 1 t9 c9.2

/-! ## Traces: resources and classification of events -/

/-- A transient resource of the provider, named by its handle. -/
inductive Resource where
  | bignum (p : Ptr)
  | pkey (p : Ptr)
  | ctx (p : Ptr)
  | rsa (p : Ptr)
  deriving DecidableEq, Repr

/-- The resource a call hands to the adapter: a successful (non-null)
allocation by `BN_new`, `EVP_PKEY_new` or `EVP_PKEY_CTX_new`. -/
def Event.acquires : Event → Option Resource
  | .BN_new r => if r = NULL then none else some (.bignum r)
  | .BN_set_word _ _ _ => none
  | .RSA_generate_key_ex _ _ _ _ _ => none
  | .BN_free _ => none
  | .EVP_PKEY_new r => if r = NULL then none else some (.pkey r)
  | .EVP_PKEY_set1_RSA _ _ _ => none
  | .EVP_PKEY_CTX_new _ _ r => if r = NULL then none else some (.ctx r)
  | .EVP_PKEY_sign_init _ _ => none
  | .EVP_PKEY_verify_init _ _ => none
  | .EVP_PKEY_CTX_set_rsa_padding _ _ _ => none
  | .EVP_PKEY_CTX_set_rsa_pss_saltlen _ _ _ => none
  | .EVP_PKEY_CTX_set_signature_md _ _ _ => none
  | .EVP_PKEY_CTX_set_rsa_mgf1_md _ _ _ => none
  | .EVP_PKEY_sign _ _ _ _ _ _ _ _ => none
  | .EVP_PKEY_verify _ _ _ _ _ _ => none
  | .EVP_PKEY_CTX_free _ => none
  | .EVP_PKEY_free _ => none
  | .RSA_free _ => none

/-- The resource a call releases. -/
def Event.releases : Event → Option Resource
  | .BN_new _ => none
  | .BN_set_word _ _ _ => none
  | .RSA_generate_key_ex _ _ _ _ _ => none
  | .BN_free e => some (.bignum e)
  | .EVP_PKEY_new _ => none
  | .EVP_PKEY_set1_RSA _ _ _ => none
  | .EVP_PKEY_CTX_new _ _ _ => none
  | .EVP_PKEY_sign_init _ _ => none
  | .EVP_PKEY_verify_init _ _ => none
  | .EVP_PKEY_CTX_set_rsa_padding _ _ _ => none
  | .EVP_PKEY_CTX_set_rsa_pss_saltlen _ _ _ => none
  | .EVP_PKEY_CTX_set_signature_md _ _ _ => none
  | .EVP_PKEY_CTX_set_rsa_mgf1_md _ _ _ => none
  | .EVP_PKEY_sign _ _ _ _ _ _ _ _ => none
  | .EVP_PKEY_verify _ _ _ _ _ _ => none
  | .EVP_PKEY_CTX_free c => some (.ctx c)
  | .EVP_PKEY_free p => some (.pkey p)
  | .RSA_free h => some (.rsa h)

/-- Effect of one call on the list of live (acquired, not yet released)
resources. -/
def liveStep (live : List Resource) (ev : Event) : List Resource :=
  match ev.acquires, ev.releases with
  | some r, _ => live ++ [r]
  | none, some r => live.erase r
  | none, none => live

/-- The resources still live after a trace of calls, starting with none. -/
def live (t : List Event) : List Resource := t.foldl liveStep []

/-- Whether a call hands the provider a buffer to write a signature into: a
call of `EVP_PKEY_sign` whose output pointer is not `NULL`. -/
def Event.writesOutput : Event → Bool
  | .BN_new _ => false
  | .BN_set_word _ _ _ => false
  | .RSA_generate_key_ex _ _ _ _ _ => false
  | .BN_free _ => false
  | .EVP_PKEY_new _ => false
  | .EVP_PKEY_set1_RSA _ _ _ => false
  | .EVP_PKEY_CTX_new _ _ _ => false
  | .EVP_PKEY_sign_init _ _ => false
  | .EVP_PKEY_verify_init _ _ => false
  | .EVP_PKEY_CTX_set_rsa_padding _ _ _ => false
  | .EVP_PKEY_CTX_set_rsa_pss_saltlen _ _ _ => false
  | .EVP_PKEY_CTX_set_signature_md _ _ _ => false
  | .EVP_PKEY_CTX_set_rsa_mgf1_md _ _ _ => false
  | .EVP_PKEY_sign _ (some _) _ _ _ _ _ _ => true
  | .EVP_PKEY_sign _ none _ _ _ _ _ _ => false
  | .EVP_PKEY_verify _ _ _ _ _ _ => false
  | .EVP_PKEY_CTX_free _ => false
  | .EVP_PKEY_free _ => false
  | .RSA_free _ => false

/-- Whether a call is one of the four configuration setters. -/
def Event.isConfig : Event → Bool
  | .BN_new _ => false
  | .BN_set_word _ _ _ => false
  | .RSA_generate_key_ex _ _ _ _ _ => false
  | .BN_free _ => false
  | .EVP_PKEY_new _ => false
  | .EVP_PKEY_set1_RSA _ _ _ => false
  | .EVP_PKEY_CTX_new _ _ _ => false
  | .EVP_PKEY_sign_init _ _ => false
  | .EVP_PKEY_verify_init _ _ => false
  | .EVP_PKEY_CTX_set_rsa_padding _ _ _ => true
  | .EVP_PKEY_CTX_set_rsa_pss_saltlen _ _ _ => true
  | .EVP_PKEY_CTX_set_signature_md _ _ _ => true
  | .EVP_PKEY_CTX_set_rsa_mgf1_md _ _ _ => true
  | .EVP_PKEY_sign _ _ _ _ _ _ _ _ => false
  | .EVP_PKEY_verify _ _ _ _ _ _ => false
  | .EVP_PKEY_CTX_free _ => false
  | .EVP_PKEY_free _ => false
  | .RSA_free _ => false

/-- The `int` a configuration setter returned. -/
def Event.configRet : Event → Option Int
  | .BN_new _ => none
  | .BN_set_word _ _ _ => none
  | .RSA_generate_key_ex _ _ _ _ _ => none
  | .BN_free _ => none
  | .EVP_PKEY_new _ => none
  | .EVP_PKEY_set1_RSA _ _ _ => none
  | .EVP_PKEY_CTX_new _ _ _ => none
  | .EVP_PKEY_sign_init _ _ => none
  | .EVP_PKEY_verify_init _ _ => none
  | .EVP_PKEY_CTX_set_rsa_padding _ _ r => some r
  | .EVP_PKEY_CTX_set_rsa_pss_saltlen _ _ r => some r
  | .EVP_PKEY_CTX_set_signature_md _ _ r => some r
  | .EVP_PKEY_CTX_set_rsa_mgf1_md _ _ r => some r
  | .EVP_PKEY_sign _ _ _ _ _ _ _ _ => none
  | .EVP_PKEY_verify _ _ _ _ _ _ => none
  | .EVP_PKEY_CTX_free _ => none
  | .EVP_PKEY_free _ => none
  | .RSA_free _ => none

/-- Whether a call is the signing or the verification primitive. -/
def Event.isExecute : Event → Bool
  | .BN_new _ => false
  | .BN_set_word _ _ _ => false
  | .RSA_generate_key_ex _ _ _ _ _ => false
  | .BN_free _ => false
  | .EVP_PKEY_new _ => false
  | .EVP_PKEY_set1_RSA _ _ _ => false
  | .EVP_PKEY_CTX_new _ _ _ => false
  | .EVP_PKEY_sign_init _ _ => false
  | .EVP_PKEY_verify_init _ _ => false
  | .EVP_PKEY_CTX_set_rsa_padding _ _ _ => false
  | .EVP_PKEY_CTX_set_rsa_pss_saltlen _ _ _ => false
  | .EVP_PKEY_CTX_set_signature_md _ _ _ => false
  | .EVP_PKEY_CTX_set_rsa_mgf1_md _ _ _ => false
  | .EVP_PKEY_sign _ _ _ _ _ _ _ _ => true
  | .EVP_PKEY_verify _ _ _ _ _ _ => true
  | .EVP_PKEY_CTX_free _ => false
  | .EVP_PKEY_free _ => false
  | .RSA_free _ => false

/-- Whether a call reported failure, by the test the source applies to it: a
null handle from an allocation, the value 0 from `BN_set_word` and
`RSA_generate_key_ex`, a result `<= 0` from the `EVP_PKEY` primitives.  Release
calls return nothing and never fail. -/
def Event.failed : Event → Bool
  | .BN_new r => decide (r = NULL)
  | .BN_set_word _ _ r => decide (r = 0)
  | .RSA_generate_key_ex _ _ _ _ r => decide (r = 0)
  | .BN_free _ => false
  | .EVP_PKEY_new r => decide (r = NULL)
  | .EVP_PKEY_set1_RSA _ _ r => decide (r ≤ 0)
  | .EVP_PKEY_CTX_new _ _ r => decide (r = NULL)
  | .EVP_PKEY_sign_init _ r => decide (r ≤ 0)
  | .EVP_PKEY_verify_init _ r => decide (r ≤ 0)
  | .EVP_PKEY_CTX_set_rsa_padding _ _ r => decide (r ≤ 0)
  | .EVP_PKEY_CTX_set_rsa_pss_saltlen _ _ r => decide (r ≤ 0)
  | .EVP_PKEY_CTX_set_signature_md _ _ r => decide (r ≤ 0)
  | .EVP_PKEY_CTX_set_rsa_mgf1_md _ _ r => decide (r ≤ 0)
  | .EVP_PKEY_sign _ _ _ _ _ r _ _ => decide (r ≤ 0)
  | .EVP_PKEY_verify _ _ _ _ _ r => decide (r ≤ 0)
  | .EVP_PKEY_CTX_free _ => false
  | .EVP_PKEY_free _ => false
  | .RSA_free _ => false

/-- What a key-wrapping, context-creation, initialisation or configuration
call returned: a handle or an `int` status. -/
inductive Outcome where
  | handle (p : Ptr)
  | status (r : Int)
  deriving DecidableEq, Repr

/-- The status carried by an outcome, if it is one. -/
def Outcome.status? : Outcome → Option Int
  | .status r => some r
  | .handle _ => none

/-- The outcome of a call that precedes the signing or verification primitive:
key wrapping, context creation, `sign_init` or `verify_init`, and the four
configuration setters. -/
def Event.setupOutcome : Event → Option Outcome
  | .BN_new _ => none
  | .BN_set_word _ _ _ => none
  | .RSA_generate_key_ex _ _ _ _ _ => none
  | .BN_free _ => none
  | .EVP_PKEY_new r => some (.handle r)
  | .EVP_PKEY_set1_RSA _ _ r => some (.status r)
  | .EVP_PKEY_CTX_new _ _ r => some (.handle r)
  | .EVP_PKEY_sign_init _ r => some (.status r)
  | .EVP_PKEY_verify_init _ r => some (.status r)
  | .EVP_PKEY_CTX_set_rsa_padding _ _ r => some (.status r)
  | .EVP_PKEY_CTX_set_rsa_pss_saltlen _ _ r => some (.status r)
  | .EVP_PKEY_CTX_set_signature_md _ _ r => some (.status r)
  | .EVP_PKEY_CTX_set_rsa_mgf1_md _ _ r => some (.status r)
  | .EVP_PKEY_sign _ _ _ _ _ _ _ _ => none
  | .EVP_PKEY_verify _ _ _ _ _ _ => none
  | .EVP_PKEY_CTX_free _ => none
  | .EVP_PKEY_free _ => none
  | .RSA_free _ => none

/-- The configuration sequence in the words of the spec: "configure, in order,
padding = PSS, salt length, signature digest algorithm, mask-generation digest
algorithm".  Each entry is a call awaiting its result. -/
def spec_configuration_sequence (ctx : Ptr) (salt_len : Int) (md mgf1_md : Ptr) :
    List (Int → Event) :=
  [Event.EVP_PKEY_CTX_set_rsa_padding ctx RSA_PKCS1_PSS_PADDING,
   Event.EVP_PKEY_CTX_set_rsa_pss_saltlen ctx salt_len,
   Event.EVP_PKEY_CTX_set_signature_md ctx md,
   Event.EVP_PKEY_CTX_set_rsa_mgf1_md ctx mgf1_md]

/-- A list of calls cut after its first failed call: the calls that are made
when each call is made only if every earlier one succeeded. -/
def cutAfterFailure : List Event → List Event
  | [] => []
  | ev :: rest => if ev.failed then [ev] else ev :: cutAfterFailure rest

/-- The configuration run in the words of the spec: the configuration sequence
on `ctx`, each step paired with the result the provider gives it, where
"failure at any step short-circuits directly to `FAILED` and skips remaining
configuration". -/
def spec_configuration_run (ctx : Ptr) (salt_len : Int) (md mgf1_md : Ptr) (rs : List Int) :
    List Event :=
  cutAfterFailure
    (List.zipWith (fun f r => f r) (spec_configuration_sequence ctx salt_len md mgf1_md) rs)

/-- The configuration calls determined by a list of setup outcomes (wrapped
key, key binding, context, initialisation, then configuration results): the
spec's sequence on the context that was created, paired with the configuration
results in order. -/
def configurationOf (salt_len : Int) (md mgf1_md : Ptr) : List Outcome → List Event
  | _ :: _ :: Outcome.handle ctx :: _ :: rest =>
      List.zipWith (fun f r => f r) (spec_configuration_sequence ctx salt_len md mgf1_md)
        (rest.filterMap Outcome.status?)
  | _ => []

/-- The trace `t` of one operation runs the spec's configuration sequence on
`ctx` after initialising it with `init`:

* its configuration calls are the spec's sequence, in order, cut where the
  calls stop;
* if there is any configuration call, the fourth call of the trace is
  `init ctx` with a result `> 0`, and the configuration calls directly follow
  it;
* every call that is followed by another call other than a release returned
  success, so a failed call is followed by nothing but the release;
* if the signing or verification primitive is called, all four configuration
  calls were made and succeeded. -/
def ConfiguredInOrder (init : Ptr → Int → Event) (ctx : Ptr) (salt_len : Int) (md mgf1_md : Ptr)
    (t : List Event) : Prop :=
  t.filter Event.isConfig =
      List.zipWith (fun f r => f r) (spec_configuration_sequence ctx salt_len md mgf1_md)
        (t.filterMap Event.configRet) ∧
  (t.filter Event.isConfig ≠ [] → ∃ r : Int, 0 < r ∧ t[3]? = some (init ctx r)) ∧
  (t.drop 4).take (t.filter Event.isConfig).length = t.filter Event.isConfig ∧
  (∀ ev ∈ (t.filter (fun ev => ev.releases.isNone)).dropLast, ev.failed = false) ∧
  (∀ ev ∈ t, ev.isExecute = true →
    (t.filter Event.isConfig).length = 4 ∧ ∀ x ∈ t.filter Event.isConfig, x.failed = false)

/-! ## A scripted provider, for concrete runs -/

/-- The results a scripted provider gives, one per primitive; `query` answers
`EVP_PKEY_sign` called with a `NULL` output pointer, `sign` answers it when
called with a buffer. -/
structure Script where
  bn_new : Ptr
  bn_set_word : Int
  generate_key_ex : Int
  pkey_new : Ptr
  set1_RSA : Int
  ctx_new : Ptr
  sign_init : Int
  verify_init : Int
  padding : Int
  saltlen : Int
  signature_md : Int
  mgf1_md : Int
  query : Int × Nat
  sign : Int × Nat × Buf
  verify : Int

/-- The provider that answers every call from a script; it has no state. -/
def scripted (k : Script) : Provider Unit where
  BN_new := fun s => (k.bn_new, s)
  BN_set_word := fun s _ _ => (k.bn_set_word, s)
  RSA_generate_key_ex := fun s _ _ _ _ => (k.generate_key_ex, s)
  BN_free := fun s _ => s
  EVP_PKEY_new := fun s => (k.pkey_new, s)
  EVP_PKEY_set1_RSA := fun s _ _ => (k.set1_RSA, s)
  EVP_PKEY_CTX_new := fun s _ _ => (k.ctx_new, s)
  EVP_PKEY_sign_init := fun s _ => (k.sign_init, s)
  EVP_PKEY_verify_init := fun s _ => (k.verify_init, s)
  EVP_PKEY_CTX_set_rsa_padding := fun s _ _ => (k.padding, s)
  EVP_PKEY_CTX_set_rsa_pss_saltlen := fun s _ _ => (k.saltlen, s)
  EVP_PKEY_CTX_set_signature_md := fun s _ _ => (k.signature_md, s)
  EVP_PKEY_CTX_set_rsa_mgf1_md := fun s _ _ => (k.mgf1_md, s)
  EVP_PKEY_sign := fun s _ sig _ _ _ =>
    match sig with
    | none => ((k.query.1, k.query.2, []), s)
    | some _ => (k.sign, s)
  EVP_PKEY_verify := fun s _ _ _ _ _ => (k.verify, s)
  EVP_PKEY_CTX_free := fun s _ => s

/-- The script in which every primitive succeeds: handles 1, 2, 3 for the
big-integer, the wrapped key and the context, and a four-byte signature. -/
def okScript : Script where
  bn_new := 1
  bn_set_word := 1
  generate_key_ex := 1
  pkey_new := 2
  set1_RSA := 1
  ctx_new := 3
  sign_init := 1
  verify_init := 1
  padding := 1
  saltlen := 1
  signature_md := 1
  mgf1_md := 1
  query := (1, 4)
  sign := (1, 4, [1, 2, 3, 4])
  verify := 1

/-- Every primitive of a signing call succeeds and the final call of
`EVP_PKEY_sign` reports 4294967301 bytes (more than an `unsigned int` holds). -/
def wideScript : Script := { okScript with sign := (1, 4294967301, [1, 2, 3, 4]) }

/-- Every primitive of a signing call succeeds, the size query reports 4 bytes
and the final call of `EVP_PKEY_sign` reports 8 bytes. -/
def longScript : Script := { okScript with sign := (1, 8, [1, 2, 3, 4, 5, 6, 7, 8]) }

/-- The final call of `EVP_PKEY_sign` fails after overwriting the buffer it was
given. -/
def dirtyScript : Script := { okScript with sign := (0, 4, [9, 9, 9, 9]) }

/-- The size query reports 5 bytes. -/
def bigScript : Script := { okScript with query := (1, 5) }

/-! ## Exits of the two PSS operations -/

/-- The results of the primitives along the call chain of
`_goboringcrypto_RSA_sign_pss_mgf1`, named one by one. -/
theorem sign_pss_mgf1_chain {σ : Type} (P : Provider σ) (s0 : σ)
    (rsa : Ptr) (out : Buf) (in_ : Buf) (in_len : Nat) (md : Ptr) (mgf1_md : Ptr)
    (salt_len : Int) (siglen0 : Nat) :
    ∃ (pkey : Ptr) (s1 : σ) (r2 : Int) (s2 : σ) (ctx : Ptr) (s3 : σ) (r4 : Int) (s4 : σ)
      (r5 : Int) (s5 : σ) (r6 : Int) (s6 : σ) (r7 : Int) (s7 : σ) (r8 : Int) (s8 : σ)
      (r9 : Int) (n9 : Nat) (b9 : Buf) (s9 : σ) (r10 : Int) (n10 : Nat) (b10 : Buf) (s10 : σ),
      P.EVP_PKEY_new s0 = (pkey, s1) ∧
      P.EVP_PKEY_set1_RSA s1 pkey rsa = (r2, s2) ∧
      P.EVP_PKEY_CTX_new s2 pkey NULL = (ctx, s3) ∧
      P.EVP_PKEY_sign_init s3 ctx = (r4, s4) ∧
      P.EVP_PKEY_CTX_set_rsa_padding s4 ctx RSA_PKCS1_PSS_PADDING = (r5, s5) ∧
      P.EVP_PKEY_CTX_set_rsa_pss_saltlen s5 ctx salt_len = (r6, s6) ∧
      P.EVP_PKEY_CTX_set_signature_md s6 ctx md = (r7, s7) ∧
      P.EVP_PKEY_CTX_set_rsa_mgf1_md s7 ctx mgf1_md = (r8, s8) ∧
      P.EVP_PKEY_sign s8 ctx none siglen0 in_ in_len = ((r9, n9, b9), s9) ∧
      P.EVP_PKEY_sign s9 ctx (some out) n9 in_ in_len = ((r10, n10, b10), s10) := by
  obtain ⟨pkey, s1, h1⟩ :
    ∃ x0 x1, P.EVP_PKEY_new s0 = (x0, x1) :=
    ⟨_, _, rfl⟩
  obtain ⟨r2, s2, h2⟩ :
    ∃ x0 x1, P.EVP_PKEY_set1_RSA s1 pkey rsa = (x0, x1) :=
    ⟨_, _, rfl⟩
  obtain ⟨ctx, s3, h3⟩ :
    ∃ x0 x1, P.EVP_PKEY_CTX_new s2 pkey NULL = (x0, x1) :=
    ⟨_, _, rfl⟩
  obtain ⟨r4, s4, h4⟩ :
    ∃ x0 x1, P.EVP_PKEY_sign_init s3 ctx = (x0, x1) :=
    ⟨_, _, rfl⟩
  obtain ⟨r5, s5, h5⟩ :
    ∃ x0 x1, P.EVP_PKEY_CTX_set_rsa_padding s4 ctx RSA_PKCS1_PSS_PADDING = (x0, x1) :=
    ⟨_, _, rfl⟩
  obtain ⟨r6, s6, h6⟩ :
    ∃ x0 x1, P.EVP_PKEY_CTX_set_rsa_pss_saltlen s5 ctx salt_len = (x0, x1) :=
    ⟨_, _, rfl⟩
  obtain ⟨r7, s7, h7⟩ :
    ∃ x0 x1, P.EVP_PKEY_CTX_set_signature_md s6 ctx md = (x0, x1) :=
    ⟨_, _, rfl⟩
  obtain ⟨r8, s8, h8⟩ :
    ∃ x0 x1, P.EVP_PKEY_CTX_set_rsa_mgf1_md s7 ctx mgf1_md = (x0, x1) :=
    ⟨_, _, rfl⟩
  obtain ⟨r9, n9, b9, s9, h9⟩ :
    ∃ x0 x1 x2 x3, P.EVP_PKEY_sign s8 ctx none siglen0 in_ in_len = ((x0, x1, x2), x3) :=
    ⟨_, _, _, _, rfl⟩
  obtain ⟨r10, n10, b10, s10, h10⟩ :
    ∃ x0 x1 x2 x3, P.EVP_PKEY_sign s9 ctx (some out) n9 in_ in_len = ((x0, x1, x2), x3) :=
    ⟨_, _, _, _, rfl⟩
  exact ⟨pkey, s1, r2, s2, ctx, s3, r4, s4, r5, s5, r6, s6, r7, s7, r8, s8, r9, n9, b9, s9, r10,
      n10, b10, s10,
    h1, h2, h3, h4, h5, h6, h7, h8, h9, h10⟩

/-- The exits of `_goboringcrypto_RSA_sign_pss_mgf1`: with the result of
each primitive along the call chain named, the function takes exactly one of
the listed exits, with the listed result and trace. -/
theorem sign_pss_mgf1_paths {σ : Type} (P : Provider σ) (s0 : σ)
    (rsa : Ptr) (out_len : Nat) (out : Buf) (max_out : Nat)
    (in_ : Buf) (in_len : Nat) (md : Ptr) (mgf1_md : Ptr) (salt_len : Int) (siglen0 : Nat)
    {pkey : Ptr} {s1 : σ} {r2 : Int} {s2 : σ} {ctx : Ptr} {s3 : σ} {r4 : Int} {s4 : σ}
    {r5 : Int} {s5 : σ} {r6 : Int} {s6 : σ} {r7 : Int} {s7 : σ} {r8 : Int} {s8 : σ}
    {r9 : Int} {n9 : Nat} {b9 : Buf} {s9 : σ} {r10 : Int} {n10 : Nat} {b10 : Buf} {s10 : σ}
    (h1 : P.EVP_PKEY_new s0 = (pkey, s1))
    (h2 : P.EVP_PKEY_set1_RSA s1 pkey rsa = (r2, s2))
    (h3 : P.EVP_PKEY_CTX_new s2 pkey NULL = (ctx, s3))
    (h4 : P.EVP_PKEY_sign_init s3 ctx = (r4, s4))
    (h5 : P.EVP_PKEY_CTX_set_rsa_padding s4 ctx RSA_PKCS1_PSS_PADDING = (r5, s5))
    (h6 : P.EVP_PKEY_CTX_set_rsa_pss_saltlen s5 ctx salt_len = (r6, s6))
    (h7 : P.EVP_PKEY_CTX_set_signature_md s6 ctx md = (r7, s7))
    (h8 : P.EVP_PKEY_CTX_set_rsa_mgf1_md s7 ctx mgf1_md = (r8, s8))
    (h9 : P.EVP_PKEY_sign s8 ctx none siglen0 in_ in_len = ((r9, n9, b9), s9))
    (h10 : P.EVP_PKEY_sign s9 ctx (some out) n9 in_ in_len = ((r10, n10, b10), s10)) :
    let r := _goboringcrypto_RSA_sign_pss_mgf1 P s0 rsa out_len out max_out in_ in_len md
      mgf1_md salt_len siglen0
    ((pkey = NULL) ∧
        r = ⟨0, out_len, out,
         [Event.EVP_PKEY_new pkey],
         s1⟩) ∨
    ((pkey ≠ NULL ∧ r2 ≤ 0) ∧
        r = ⟨0, out_len, out,
         [Event.EVP_PKEY_new pkey,
          Event.EVP_PKEY_set1_RSA pkey rsa r2],
         s2⟩) ∨
    ((pkey ≠ NULL ∧ 0 < r2 ∧ ctx = NULL) ∧
        r = ⟨0, out_len, out,
         [Event.EVP_PKEY_new pkey,
          Event.EVP_PKEY_set1_RSA pkey rsa r2,
          Event.EVP_PKEY_CTX_new pkey NULL ctx],
         s3⟩) ∨
    ((pkey ≠ NULL ∧ 0 < r2 ∧ ctx ≠ NULL ∧ r4 ≤ 0) ∧
        r = ⟨0, out_len, out,
         [Event.EVP_PKEY_new pkey,
          Event.EVP_PKEY_set1_RSA pkey rsa r2,
          Event.EVP_PKEY_CTX_new pkey NULL ctx,
          Event.EVP_PKEY_sign_init ctx r4,
          Event.EVP_PKEY_CTX_free ctx],
         P.EVP_PKEY_CTX_free s4 ctx⟩) ∨
    ((pkey ≠ NULL ∧ 0 < r2 ∧ ctx ≠ NULL ∧ 0 < r4 ∧ r5 ≤ 0) ∧
        r = ⟨0, out_len, out,
         [Event.EVP_PKEY_new pkey,
          Event.EVP_PKEY_set1_RSA pkey rsa r2,
          Event.EVP_PKEY_CTX_new pkey NULL ctx,
          Event.EVP_PKEY_sign_init ctx r4,
          Event.EVP_PKEY_CTX_set_rsa_padding ctx RSA_PKCS1_PSS_PADDING r5,
          Event.EVP_PKEY_CTX_free ctx],
         P.EVP_PKEY_CTX_free s5 ctx⟩) ∨
    ((pkey ≠ NULL ∧ 0 < r2 ∧ ctx ≠ NULL ∧ 0 < r4 ∧ 0 < r5 ∧ r6 ≤ 0) ∧
        r = ⟨0, out_len, out,
         [Event.EVP_PKEY_new pkey,
          Event.EVP_PKEY_set1_RSA pkey rsa r2,
          Event.EVP_PKEY_CTX_new pkey NULL ctx,
          Event.EVP_PKEY_sign_init ctx r4,
          Event.EVP_PKEY_CTX_set_rsa_padding ctx RSA_PKCS1_PSS_PADDING r5,
          Event.EVP_PKEY_CTX_set_rsa_pss_saltlen ctx salt_len r6,
          Event.EVP_PKEY_CTX_free ctx],
         P.EVP_PKEY_CTX_free s6 ctx⟩) ∨
    ((pkey ≠ NULL ∧ 0 < r2 ∧ ctx ≠ NULL ∧ 0 < r4 ∧ 0 < r5 ∧ 0 < r6 ∧ r7 ≤ 0) ∧
        r = ⟨0, out_len, out,
         [Event.EVP_PKEY_new pkey,
          Event.EVP_PKEY_set1_RSA pkey rsa r2,
          Event.EVP_PKEY_CTX_new pkey NULL ctx,
          Event.EVP_PKEY_sign_init ctx r4,
          Event.EVP_PKEY_CTX_set_rsa_padding ctx RSA_PKCS1_PSS_PADDING r5,
          Event.EVP_PKEY_CTX_set_rsa_pss_saltlen ctx salt_len r6,
          Event.EVP_PKEY_CTX_set_signature_md ctx md r7,
          Event.EVP_PKEY_CTX_free ctx],
         P.EVP_PKEY_CTX_free s7 ctx⟩) ∨
    ((pkey ≠ NULL ∧ 0 < r2 ∧ ctx ≠ NULL ∧ 0 < r4 ∧ 0 < r5 ∧ 0 < r6 ∧ 0 < r7 ∧ r8 ≤ 0) ∧
        r = ⟨0, out_len, out,
         [Event.EVP_PKEY_new pkey,
          Event.EVP_PKEY_set1_RSA pkey rsa r2,
          Event.EVP_PKEY_CTX_new pkey NULL ctx,
          Event.EVP_PKEY_sign_init ctx r4,
          Event.EVP_PKEY_CTX_set_rsa_padding ctx RSA_PKCS1_PSS_PADDING r5,
          Event.EVP_PKEY_CTX_set_rsa_pss_saltlen ctx salt_len r6,
          Event.EVP_PKEY_CTX_set_signature_md ctx md r7,
          Event.EVP_PKEY_CTX_set_rsa_mgf1_md ctx mgf1_md r8,
          Event.EVP_PKEY_CTX_free ctx],
         P.EVP_PKEY_CTX_free s8 ctx⟩) ∨
    ((pkey ≠ NULL ∧ 0 < r2 ∧ ctx ≠ NULL ∧ 0 < r4 ∧ 0 < r5 ∧ 0 < r6 ∧ 0 < r7 ∧ 0 < r8 ∧ r9 ≤ 0) ∧
        r = ⟨0, out_len, out,
         [Event.EVP_PKEY_new pkey,
          Event.EVP_PKEY_set1_RSA pkey rsa r2,
          Event.EVP_PKEY_CTX_new pkey NULL ctx,
          Event.EVP_PKEY_sign_init ctx r4,
          Event.EVP_PKEY_CTX_set_rsa_padding ctx RSA_PKCS1_PSS_PADDING r5,
          Event.EVP_PKEY_CTX_set_rsa_pss_saltlen ctx salt_len r6,
          Event.EVP_PKEY_CTX_set_signature_md ctx md r7,
          Event.EVP_PKEY_CTX_set_rsa_mgf1_md ctx mgf1_md r8,
          Event.EVP_PKEY_sign ctx none siglen0 in_ in_len r9 n9 b9,
          Event.EVP_PKEY_CTX_free ctx],
         P.EVP_PKEY_CTX_free s9 ctx⟩) ∨
    ((pkey ≠ NULL ∧ 0 < r2 ∧ ctx ≠ NULL ∧ 0 < r4 ∧ 0 < r5 ∧ 0 < r6 ∧ 0 < r7 ∧ 0 < r8 ∧ 0 < r9 ∧
        max_out < n9) ∧
        r = ⟨0, out_len, out,
         [Event.EVP_PKEY_new pkey,
          Event.EVP_PKEY_set1_RSA pkey rsa r2,
          Event.EVP_PKEY_CTX_new pkey NULL ctx,
          Event.EVP_PKEY_sign_init ctx r4,
          Event.EVP_PKEY_CTX_set_rsa_padding ctx RSA_PKCS1_PSS_PADDING r5,
          Event.EVP_PKEY_CTX_set_rsa_pss_saltlen ctx salt_len r6,
          Event.EVP_PKEY_CTX_set_signature_md ctx md r7,
          Event.EVP_PKEY_CTX_set_rsa_mgf1_md ctx mgf1_md r8,
          Event.EVP_PKEY_sign ctx none siglen0 in_ in_len r9 n9 b9,
          Event.EVP_PKEY_CTX_free ctx],
         P.EVP_PKEY_CTX_free s9 ctx⟩) ∨
    ((pkey ≠ NULL ∧ 0 < r2 ∧ ctx ≠ NULL ∧ 0 < r4 ∧ 0 < r5 ∧ 0 < r6 ∧ 0 < r7 ∧ 0 < r8 ∧ 0 < r9 ∧
        n9 ≤ max_out ∧ r10 ≤ 0) ∧
        r = ⟨0, out_len, b10,
         [Event.EVP_PKEY_new pkey,
          Event.EVP_PKEY_set1_RSA pkey rsa r2,
          Event.EVP_PKEY_CTX_new pkey NULL ctx,
          Event.EVP_PKEY_sign_init ctx r4,
          Event.EVP_PKEY_CTX_set_rsa_padding ctx RSA_PKCS1_PSS_PADDING r5,
          Event.EVP_PKEY_CTX_set_rsa_pss_saltlen ctx salt_len r6,
          Event.EVP_PKEY_CTX_set_signature_md ctx md r7,
          Event.EVP_PKEY_CTX_set_rsa_mgf1_md ctx mgf1_md r8,
          Event.EVP_PKEY_sign ctx none siglen0 in_ in_len r9 n9 b9,
          Event.EVP_PKEY_sign ctx (some out) n9 in_ in_len r10 n10 b10,
          Event.EVP_PKEY_CTX_free ctx],
         P.EVP_PKEY_CTX_free s10 ctx⟩) ∨
    ((pkey ≠ NULL ∧ 0 < r2 ∧ ctx ≠ NULL ∧ 0 < r4 ∧ 0 < r5 ∧ 0 < r6 ∧ 0 < r7 ∧ 0 < r8 ∧ 0 < r9 ∧
        n9 ≤ max_out ∧ 0 < r10) ∧
        r = ⟨1, (n10 % 2 ^ 32), b10,
         [Event.EVP_PKEY_new pkey,
          Event.EVP_PKEY_set1_RSA pkey rsa r2,
          Event.EVP_PKEY_CTX_new pkey NULL ctx,
          Event.EVP_PKEY_sign_init ctx r4,
          Event.EVP_PKEY_CTX_set_rsa_padding ctx RSA_PKCS1_PSS_PADDING r5,
          Event.EVP_PKEY_CTX_set_rsa_pss_saltlen ctx salt_len r6,
          Event.EVP_PKEY_CTX_set_signature_md ctx md r7,
          Event.EVP_PKEY_CTX_set_rsa_mgf1_md ctx mgf1_md r8,
          Event.EVP_PKEY_sign ctx none siglen0 in_ in_len r9 n9 b9,
          Event.EVP_PKEY_sign ctx (some out) n9 in_ in_len r10 n10 b10,
          Event.EVP_PKEY_CTX_free ctx],
         P.EVP_PKEY_CTX_free s10 ctx⟩) := by
  intro r
  have hr : _goboringcrypto_RSA_sign_pss_mgf1 P s0 rsa out_len out max_out in_ in_len md
      mgf1_md salt_len siglen0 = r := rfl
  clear_value r
  simp only [_goboringcrypto_RSA_sign_pss_mgf1, h1, h2, h3, h4, h5, h6, h7, h8, h9, h10] at hr
  by_cases c1 : pkey = NULL
  · rw [if_pos c1] at hr
    subst hr
    simp_all
  rw [if_neg c1] at hr
  by_cases c2 : r2 ≤ 0
  · rw [if_pos c2] at hr
    subst hr
    simp_all
  rw [if_neg c2] at hr
  by_cases c3 : ctx = NULL
  · rw [if_pos c3] at hr
    subst hr
    simp_all
  rw [if_neg c3] at hr
  by_cases c4 : r4 ≤ 0
  · rw [if_pos c4] at hr
    subst hr
    simp_all
  rw [if_neg c4] at hr
  by_cases c5 : r5 ≤ 0
  · rw [if_pos c5] at hr
    subst hr
    simp_all
  rw [if_neg c5] at hr
  by_cases c6 : r6 ≤ 0
  · rw [if_pos c6] at hr
    subst hr
    simp_all
  rw [if_neg c6] at hr
  by_cases c7 : r7 ≤ 0
  · rw [if_pos c7] at hr
    subst hr
    simp_all
  rw [if_neg c7] at hr
  by_cases c8 : r8 ≤ 0
  · rw [if_pos c8] at hr
    subst hr
    simp_all
  rw [if_neg c8] at hr
  by_cases c9 : r9 ≤ 0
  · rw [if_pos c9] at hr
    subst hr
    simp_all
  rw [if_neg c9] at hr
  by_cases cc : max_out < n9
  · rw [if_pos cc] at hr
    subst hr
    simp_all
  rw [if_neg cc] at hr
  by_cases c10 : r10 ≤ 0
  · rw [if_pos c10] at hr
    subst hr
    simp_all
  rw [if_neg c10] at hr
  subst hr
  simp_all [UINT_RANGE]

/-- The results of the primitives along the call chain of
`_goboringcrypto_RSA_verify_pss_mgf1`, named one by one. -/
theorem verify_pss_mgf1_chain {σ : Type} (P : Provider σ) (s0 : σ)
    (rsa : Ptr) (msg : Buf) (msg_len : Nat) (md : Ptr) (mgf1_md : Ptr) (salt_len : Int)
    (sig : Buf) (sig_len : Nat) :
    ∃ (pkey : Ptr) (s1 : σ) (r2 : Int) (s2 : σ) (ctx : Ptr) (s3 : σ) (r4 : Int) (s4 : σ)
      (r5 : Int) (s5 : σ) (r6 : Int) (s6 : σ) (r7 : Int) (s7 : σ) (r8 : Int) (s8 : σ)
      (r9 : Int) (s9 : σ),
      P.EVP_PKEY_new s0 = (pkey, s1) ∧
      P.EVP_PKEY_set1_RSA s1 pkey rsa = (r2, s2) ∧
      P.EVP_PKEY_CTX_new s2 pkey NULL = (ctx, s3) ∧
      P.EVP_PKEY_verify_init s3 ctx = (r4, s4) ∧
      P.EVP_PKEY_CTX_set_rsa_padding s4 ctx RSA_PKCS1_PSS_PADDING = (r5, s5) ∧
      P.EVP_PKEY_CTX_set_rsa_pss_saltlen s5 ctx salt_len = (r6, s6) ∧
      P.EVP_PKEY_CTX_set_signature_md s6 ctx md = (r7, s7) ∧
      P.EVP_PKEY_CTX_set_rsa_mgf1_md s7 ctx mgf1_md = (r8, s8) ∧
      P.EVP_PKEY_verify s8 ctx sig sig_len msg msg_len = (r9, s9) := by
  obtain ⟨pkey, s1, h1⟩ :
    ∃ x0 x1, P.EVP_PKEY_new s0 = (x0, x1) :=
    ⟨_, _, rfl⟩
  obtain ⟨r2, s2, h2⟩ :
    ∃ x0 x1, P.EVP_PKEY_set1_RSA s1 pkey rsa = (x0, x1) :=
    ⟨_, _, rfl⟩
  obtain ⟨ctx, s3, h3⟩ :
    ∃ x0 x1, P.EVP_PKEY_CTX_new s2 pkey NULL = (x0, x1) :=
    ⟨_, _, rfl⟩
  obtain ⟨r4, s4, h4⟩ :
    ∃ x0 x1, P.EVP_PKEY_verify_init s3 ctx = (x0, x1) :=
    ⟨_, _, rfl⟩
  obtain ⟨r5, s5, h5⟩ :
    ∃ x0 x1, P.EVP_PKEY_CTX_set_rsa_padding s4 ctx RSA_PKCS1_PSS_PADDING = (x0, x1) :=
    ⟨_, _, rfl⟩
  obtain ⟨r6, s6, h6⟩ :
    ∃ x0 x1, P.EVP_PKEY_CTX_set_rsa_pss_saltlen s5 ctx salt_len = (x0, x1) :=
    ⟨_, _, rfl⟩
  obtain ⟨r7, s7, h7⟩ :
    ∃ x0 x1, P.EVP_PKEY_CTX_set_signature_md s6 ctx md = (x0, x1) :=
    ⟨_, _, rfl⟩
  obtain ⟨r8, s8, h8⟩ :
    ∃ x0 x1, P.EVP_PKEY_CTX_set_rsa_mgf1_md s7 ctx mgf1_md = (x0, x1) :=
    ⟨_, _, rfl⟩
  obtain ⟨r9, s9, h9⟩ :
    ∃ x0 x1, P.EVP_PKEY_verify s8 ctx sig sig_len msg msg_len = (x0, x1) :=
    ⟨_, _, rfl⟩
  exact ⟨pkey, s1, r2, s2, ctx, s3, r4, s4, r5, s5, r6, s6, r7, s7, r8, s8, r9, s9,
    h1, h2, h3, h4, h5, h6, h7, h8, h9⟩

/-- The exits of `_goboringcrypto_RSA_verify_pss_mgf1`: with the result of
each primitive along the call chain named, the function takes exactly one of
the listed exits, with the listed result and trace. -/
theorem verify_pss_mgf1_paths {σ : Type} (P : Provider σ) (s0 : σ)
    (rsa : Ptr) (msg : Buf) (msg_len : Nat) (md : Ptr) (mgf1_md : Ptr) (salt_len : Int)
    (sig : Buf) (sig_len : Nat)
    {pkey : Ptr} {s1 : σ} {r2 : Int} {s2 : σ} {ctx : Ptr} {s3 : σ} {r4 : Int} {s4 : σ}
    {r5 : Int} {s5 : σ} {r6 : Int} {s6 : σ} {r7 : Int} {s7 : σ} {r8 : Int} {s8 : σ}
    {r9 : Int} {s9 : σ}
    (h1 : P.EVP_PKEY_new s0 = (pkey, s1))
    (h2 : P.EVP_PKEY_set1_RSA s1 pkey rsa = (r2, s2))
    (h3 : P.EVP_PKEY_CTX_new s2 pkey NULL = (ctx, s3))
    (h4 : P.EVP_PKEY_verify_init s3 ctx = (r4, s4))
    (h5 : P.EVP_PKEY_CTX_set_rsa_padding s4 ctx RSA_PKCS1_PSS_PADDING = (r5, s5))
    (h6 : P.EVP_PKEY_CTX_set_rsa_pss_saltlen s5 ctx salt_len = (r6, s6))
    (h7 : P.EVP_PKEY_CTX_set_signature_md s6 ctx md = (r7, s7))
    (h8 : P.EVP_PKEY_CTX_set_rsa_mgf1_md s7 ctx mgf1_md = (r8, s8))
    (h9 : P.EVP_PKEY_verify s8 ctx sig sig_len msg msg_len = (r9, s9)) :
    let r := _goboringcrypto_RSA_verify_pss_mgf1 P s0 rsa msg msg_len md mgf1_md salt_len
      sig sig_len
    ((pkey = NULL) ∧
        r = ⟨0,
         [Event.EVP_PKEY_new pkey],
         s1⟩) ∨
    ((pkey ≠ NULL ∧ r2 ≤ 0) ∧
        r = ⟨0,
         [Event.EVP_PKEY_new pkey,
          Event.EVP_PKEY_set1_RSA pkey rsa r2],
         s2⟩) ∨
    ((pkey ≠ NULL ∧ 0 < r2 ∧ ctx = NULL) ∧
        r = ⟨0,
         [Event.EVP_PKEY_new pkey,
          Event.EVP_PKEY_set1_RSA pkey rsa r2,
          Event.EVP_PKEY_CTX_new pkey NULL ctx],
         s3⟩) ∨
    ((pkey ≠ NULL ∧ 0 < r2 ∧ ctx ≠ NULL ∧ r4 ≤ 0) ∧
        r = ⟨0,
         [Event.EVP_PKEY_new pkey,
          Event.EVP_PKEY_set1_RSA pkey rsa r2,
          Event.EVP_PKEY_CTX_new pkey NULL ctx,
          Event.EVP_PKEY_verify_init ctx r4,
          Event.EVP_PKEY_CTX_free ctx],
         P.EVP_PKEY_CTX_free s4 ctx⟩) ∨
    ((pkey ≠ NULL ∧ 0 < r2 ∧ ctx ≠ NULL ∧ 0 < r4 ∧ r5 ≤ 0) ∧
        r = ⟨0,
         [Event.EVP_PKEY_new pkey,
          Event.EVP_PKEY_set1_RSA pkey rsa r2,
          Event.EVP_PKEY_CTX_new pkey NULL ctx,
          Event.EVP_PKEY_verify_init ctx r4,
          Event.EVP_PKEY_CTX_set_rsa_padding ctx RSA_PKCS1_PSS_PADDING r5,
          Event.EVP_PKEY_CTX_free ctx],
         P.EVP_PKEY_CTX_free s5 ctx⟩) ∨
    ((pkey ≠ NULL ∧ 0 < r2 ∧ ctx ≠ NULL ∧ 0 < r4 ∧ 0 < r5 ∧ r6 ≤ 0) ∧
        r = ⟨0,
         [Event.EVP_PKEY_new pkey,
          Event.EVP_PKEY_set1_RSA pkey rsa r2,
          Event.EVP_PKEY_CTX_new pkey NULL ctx,
          Event.EVP_PKEY_verify_init ctx r4,
          Event.EVP_PKEY_CTX_set_rsa_padding ctx RSA_PKCS1_PSS_PADDING r5,
          Event.EVP_PKEY_CTX_set_rsa_pss_saltlen ctx salt_len r6,
          Event.EVP_PKEY_CTX_free ctx],
         P.EVP_PKEY_CTX_free s6 ctx⟩) ∨
    ((pkey ≠ NULL ∧ 0 < r2 ∧ ctx ≠ NULL ∧ 0 < r4 ∧ 0 < r5 ∧ 0 < r6 ∧ r7 ≤ 0) ∧
        r = ⟨0,
         [Event.EVP_PKEY_new pkey,
          Event.EVP_PKEY_set1_RSA pkey rsa r2,
          Event.EVP_PKEY_CTX_new pkey NULL ctx,
          Event.EVP_PKEY_verify_init ctx r4,
          Event.EVP_PKEY_CTX_set_rsa_padding ctx RSA_PKCS1_PSS_PADDING r5,
          Event.EVP_PKEY_CTX_set_rsa_pss_saltlen ctx salt_len r6,
          Event.EVP_PKEY_CTX_set_signature_md ctx md r7,
          Event.EVP_PKEY_CTX_free ctx],
         P.EVP_PKEY_CTX_free s7 ctx⟩) ∨
    ((pkey ≠ NULL ∧ 0 < r2 ∧ ctx ≠ NULL ∧ 0 < r4 ∧ 0 < r5 ∧ 0 < r6 ∧ 0 < r7 ∧ r8 ≤ 0) ∧
        r = ⟨0,
         [Event.EVP_PKEY_new pkey,
          Event.EVP_PKEY_set1_RSA pkey rsa r2,
          Event.EVP_PKEY_CTX_new pkey NULL ctx,
          Event.EVP_PKEY_verify_init ctx r4,
          Event.EVP_PKEY_CTX_set_rsa_padding ctx RSA_PKCS1_PSS_PADDING r5,
          Event.EVP_PKEY_CTX_set_rsa_pss_saltlen ctx salt_len r6,
          Event.EVP_PKEY_CTX_set_signature_md ctx md r7,
          Event.EVP_PKEY_CTX_set_rsa_mgf1_md ctx mgf1_md r8,
          Event.EVP_PKEY_CTX_free ctx],
         P.EVP_PKEY_CTX_free s8 ctx⟩) ∨
    ((pkey ≠ NULL ∧ 0 < r2 ∧ ctx ≠ NULL ∧ 0 < r4 ∧ 0 < r5 ∧ 0 < r6 ∧ 0 < r7 ∧ 0 < r8 ∧ r9 ≤ 0) ∧
        r = ⟨0,
         [Event.EVP_PKEY_new pkey,
          Event.EVP_PKEY_set1_RSA pkey rsa r2,
          Event.EVP_PKEY_CTX_new pkey NULL ctx,
          Event.EVP_PKEY_verify_init ctx r4,
          Event.EVP_PKEY_CTX_set_rsa_padding ctx RSA_PKCS1_PSS_PADDING r5,
          Event.EVP_PKEY_CTX_set_rsa_pss_saltlen ctx salt_len r6,
          Event.EVP_PKEY_CTX_set_signature_md ctx md r7,
          Event.EVP_PKEY_CTX_set_rsa_mgf1_md ctx mgf1_md r8,
          Event.EVP_PKEY_verify ctx sig sig_len msg msg_len r9,
          Event.EVP_PKEY_CTX_free ctx],
         P.EVP_PKEY_CTX_free s9 ctx⟩) ∨
    ((pkey ≠ NULL ∧ 0 < r2 ∧ ctx ≠ NULL ∧ 0 < r4 ∧ 0 < r5 ∧ 0 < r6 ∧ 0 < r7 ∧ 0 < r8 ∧ 0 < r9) ∧
        r = ⟨1,
         [Event.EVP_PKEY_new pkey,
          Event.EVP_PKEY_set1_RSA pkey rsa r2,
          Event.EVP_PKEY_CTX_new pkey NULL ctx,
          Event.EVP_PKEY_verify_init ctx r4,
          Event.EVP_PKEY_CTX_set_rsa_padding ctx RSA_PKCS1_PSS_PADDING r5,
          Event.EVP_PKEY_CTX_set_rsa_pss_saltlen ctx salt_len r6,
          Event.EVP_PKEY_CTX_set_signature_md ctx md r7,
          Event.EVP_PKEY_CTX_set_rsa_mgf1_md ctx mgf1_md r8,
          Event.EVP_PKEY_verify ctx sig sig_len msg msg_len r9,
          Event.EVP_PKEY_CTX_free ctx],
         P.EVP_PKEY_CTX_free s9 ctx⟩) := by
  intro r
  have hr : _goboringcrypto_RSA_verify_pss_mgf1 P s0 rsa msg msg_len md mgf1_md salt_len
      sig sig_len = r := rfl
  clear_value r
  simp only [_goboringcrypto_RSA_verify_pss_mgf1, h1, h2, h3, h4, h5, h6, h7, h8, h9] at hr
  by_cases c1 : pkey = NULL
  · rw [if_pos c1] at hr
    subst hr
    simp_all
  rw [if_neg c1] at hr
  by_cases c2 : r2 ≤ 0
  · rw [if_pos c2] at hr
    subst hr
    simp_all
  rw [if_neg c2] at hr
  by_cases c3 : ctx = NULL
  · rw [if_pos c3] at hr
    subst hr
    simp_all
  rw [if_neg c3] at hr
  by_cases c4 : r4 ≤ 0
  · rw [if_pos c4] at hr
    subst hr
    simp_all
  rw [if_neg c4] at hr
  by_cases c5 : r5 ≤ 0
  · rw [if_pos c5] at hr
    subst hr
    simp_all
  rw [if_neg c5] at hr
  by_cases c6 : r6 ≤ 0
  · rw [if_pos c6] at hr
    subst hr
    simp_all
  rw [if_neg c6] at hr
  by_cases c7 : r7 ≤ 0
  · rw [if_pos c7] at hr
    subst hr
    simp_all
  rw [if_neg c7] at hr
  by_cases c8 : r8 ≤ 0
  · rw [if_pos c8] at hr
    subst hr
    simp_all
  rw [if_neg c8] at hr
  by_cases c9 : r9 ≤ 0
  · rw [if_pos c9] at hr
    subst hr
    simp_all
  rw [if_neg c9] at hr
  subst hr
  simp_all

/-! ## Key generation -/

/-- C7: `_goboringcrypto_RSA_generate_key_fips` returns exactly 0 or 1; it
returns 1 if and only if the allocation, the set-word call and the
key-generation primitive all succeed (non-null handle, nonzero results: these
two primitives report failure by the value 0, which is what the C `&&` tests).
When the allocation fails the only call made is `BN_new`; when setting the
exponent fails the calls made are `BN_new`, `BN_set_word`, `BN_free`, so the
key-generation primitive is not invoked; when key generation fails the result
is 0. -/
theorem generate_key_fips_result {σ : Type} (P : Provider σ) (s0 : σ)
    (rsa : Ptr) (size : Int) (cb : Ptr) :
    let c1 := P.BN_new s0
    let e := c1.1
    let c2 := P.BN_set_word c1.2 e RSA_F4
    let c3 := P.RSA_generate_key_ex c2.2 rsa size e cb
    let r := _goboringcrypto_RSA_generate_key_fips P s0 rsa size cb
    (r.ret = 0 ∨ r.ret = 1) ∧
    (r.ret = 1 ↔ e ≠ NULL ∧ c2.1 ≠ 0 ∧ c3.1 ≠ 0) ∧
    (e = NULL → r.ret = 0 ∧ r.trace = [Event.BN_new NULL]) ∧
    (e ≠ NULL → c2.1 = 0 →
      r.ret = 0 ∧ r.trace = [Event.BN_new e, Event.BN_set_word e RSA_F4 0, Event.BN_free e]) ∧
    (e ≠ NULL → c2.1 ≠ 0 → c3.1 = 0 → r.ret = 0) := by
  intro c1 e c2 c3 r
  simp only [r, _goboringcrypto_RSA_generate_key_fips]
  split_ifs <;> simp_all [c1, c2, c3, e]

/-- C9: `_goboringcrypto_RSA_generate_key_fips` always calls `BN_new` first.
When the big-integer was allocated, the calls made are exactly `BN_new`,
`BN_set_word`, the key generator if the set-word succeeded, and last
`BN_free` of the allocated handle, applied to the provider state the preceding
call left; so the big-integer is live until that last call, is released
exactly once, on the success path and on both failure paths, and is passed to
no primitive afterwards.  When it was not allocated the only call is `BN_new`
and the provider state is the one `BN_new` left.  No call releases the
caller's RSA key handle, and no resource is live at return. -/
theorem generate_key_fips_release {σ : Type} (P : Provider σ) (s0 : σ)
    (rsa : Ptr) (size : Int) (cb : Ptr) :
    let c1 := P.BN_new s0
    let e := c1.1
    let c2 := P.BN_set_word c1.2 e RSA_F4
    let c3 := P.RSA_generate_key_ex c2.2 rsa size e cb
    let r := _goboringcrypto_RSA_generate_key_fips P s0 rsa size cb
    (e = NULL → ∀ ev ∈ r.trace, ev.releases = none) ∧
    (e ≠ NULL → r.trace = r.trace.dropLast ++ [Event.BN_free e] ∧
      (∀ ev ∈ r.trace.dropLast, ev.releases = none) ∧
      r.trace.count (Event.BN_free e) = 1) ∧
    (∀ ev ∈ r.trace, ∀ h : Ptr, ev.releases ≠ some (Resource.rsa h)) ∧
    live r.trace = [] ∧
    r.trace.head? = some (Event.BN_new e) ∧
    (e = NULL → r.trace = [Event.BN_new NULL] ∧ r.st = c1.2) ∧
    (e ≠ NULL → c2.1 = 0 →
      r.trace = [Event.BN_new e, Event.BN_set_word e RSA_F4 0, Event.BN_free e] ∧
      r.st = P.BN_free c2.2 e) ∧
    (e ≠ NULL → c2.1 ≠ 0 →
      r.trace = [Event.BN_new e, Event.BN_set_word e RSA_F4 c2.1,
        Event.RSA_generate_key_ex rsa size e cb c3.1, Event.BN_free e] ∧
      r.st = P.BN_free c3.2 e) ∧
    (e ≠ NULL → live r.trace.dropLast = [Resource.bignum e]) := by
  intro c1 e c2 c3 r
  simp only [r, _goboringcrypto_RSA_generate_key_fips]
  split_ifs with h1 h2 <;>
    simp_all [c1, c2, c3, e, Event.releases, Event.acquires, live, liveStep, List.dropLast, NULL]

/-! ## PSS signing -/

/-- C1, as amended: `_goboringcrypto_RSA_sign_pss_mgf1` returns 1 if and only
if key wrapping, context creation, `sign_init`, the four configuration steps,
the size query and the final signing call all succeed (non-null, or result
`> 0`) and the queried length is at most `max_out`; otherwise it returns 0.  On
the success return `*out_len` holds the length reported by the final signing
call reduced modulo `2 ^ 32`, which is that length whenever it is below
`2 ^ 32`. -/
theorem sign_pss_mgf1_result {σ : Type} (P : Provider σ) (s0 : σ)
    (rsa : Ptr) (out_len : Nat) (out : Buf) (max_out : Nat)
    (in_ : Buf) (in_len : Nat) (md : Ptr) (mgf1_md : Ptr) (salt_len : Int) (siglen0 : Nat) :
    let c1 := P.EVP_PKEY_new s0
    let pkey := c1.1
    let c2 := P.EVP_PKEY_set1_RSA c1.2 pkey rsa
    let c3 := P.EVP_PKEY_CTX_new c2.2 pkey NULL
    let ctx := c3.1
    let c4 := P.EVP_PKEY_sign_init c3.2 ctx
    let c5 := P.EVP_PKEY_CTX_set_rsa_padding c4.2 ctx RSA_PKCS1_PSS_PADDING
    let c6 := P.EVP_PKEY_CTX_set_rsa_pss_saltlen c5.2 ctx salt_len
    let c7 := P.EVP_PKEY_CTX_set_signature_md c6.2 ctx md
    let c8 := P.EVP_PKEY_CTX_set_rsa_mgf1_md c7.2 ctx mgf1_md
    let c9 := P.EVP_PKEY_sign c8.2 ctx none siglen0 in_ in_len
    let c10 := P.EVP_PKEY_sign c9.2 ctx (some out) c9.1.2.1 in_ in_len
    let r := _goboringcrypto_RSA_sign_pss_mgf1 P s0 rsa out_len out max_out in_ in_len md mgf1_md
      salt_len siglen0
    (r.ret = 1 ↔ pkey ≠ NULL ∧ 0 < c2.1 ∧ ctx ≠ NULL ∧ 0 < c4.1 ∧ 0 < c5.1 ∧ 0 < c6.1 ∧
      0 < c7.1 ∧ 0 < c8.1 ∧ 0 < c9.1.1 ∧ c9.1.2.1 ≤ max_out ∧ 0 < c10.1.1) ∧
    (r.ret ≠ 1 → r.ret = 0) ∧
    (r.ret = 1 → r.out_len = c10.1.2.1 % 2 ^ 32 ∧
        (c10.1.2.1 < 2 ^ 32 → r.out_len = c10.1.2.1)) := by
  obtain ⟨pkey, s1, r2, s2, ctx, s3, r4, s4, r5, s5, r6, s6, r7, s7, r8, s8, r9, n9, b9, s9,
    r10, n10, b10, s10,
    h1, h2, h3, h4, h5, h6, h7, h8, h9, h10⟩ :=
    sign_pss_mgf1_chain P s0 rsa out in_ in_len md mgf1_md salt_len siglen0
  simp only [h1, h2, h3, h4, h5, h6, h7, h8, h9, h10]
  have hc := sign_pss_mgf1_paths P s0 rsa out_len out max_out in_ in_len md mgf1_md salt_len siglen0
    h1 h2 h3 h4 h5 h6 h7 h8 h9 h10
  clear h1 h2 h3 h4 h5 h6 h7 h8 h9 h10
  rcases hc with hc | hc | hc | hc | hc | hc | hc | hc | hc | hc | hc | hc
  all_goals simp_all [Nat.mod_eq_of_lt]

/-- C1 fails as stated: with every primitive succeeding and the final signing
call reporting 4294967301 bytes, the call returns 1 and `*out_len` holds 5. -/
theorem sign_pss_mgf1_result_counterexample :
    (_goboringcrypto_RSA_sign_pss_mgf1 (scripted wideScript) () 7 0 [0, 0, 0, 0] 4 [5] 1 8 9 32
      0).ret = 1 ∧
    ((scripted wideScript).EVP_PKEY_sign () 3 (some [0, 0, 0, 0]) 4 [5] 1).1.2.1 = 4294967301 ∧
    (_goboringcrypto_RSA_sign_pss_mgf1 (scripted wideScript) () 7 0 [0, 0, 0, 0] 4 [5] 1 8 9 32
      0).out_len = 5 ∧
    (_goboringcrypto_RSA_sign_pss_mgf1 (scripted wideScript) () 7 0 [0, 0, 0, 0] 4 [5] 1 8 9 32
      0).out_len ≠
      ((scripted wideScript).EVP_PKEY_sign () 3 (some [0, 0, 0, 0]) 4 [5] 1).1.2.1 := by
  decide

/-- C3: whenever the size query of `_goboringcrypto_RSA_sign_pss_mgf1` (the
call of `EVP_PKEY_sign` with a `NULL` output pointer) reports a length
strictly greater than `max_out`, the operation returns 0, the signing primitive
is never called with the caller's buffer, and neither the buffer nor `*out_len`
is written. -/
theorem sign_pss_mgf1_capacity {σ : Type} (P : Provider σ) (s0 : σ)
    (rsa : Ptr) (out_len : Nat) (out : Buf) (max_out : Nat)
    (in_ : Buf) (in_len : Nat) (md : Ptr) (mgf1_md : Ptr) (salt_len : Int) (siglen0 : Nat)
    (c : Ptr) (l : Nat) (tbs : Buf) (tl : Nat) (rt : Int) (n : Nat) (b : Buf)
    (hq : Event.EVP_PKEY_sign c none l tbs tl rt n b ∈
      (_goboringcrypto_RSA_sign_pss_mgf1 P s0 rsa out_len out max_out in_ in_len md mgf1_md
      salt_len siglen0).trace)
    (hn : max_out < n) :
    (_goboringcrypto_RSA_sign_pss_mgf1 P s0 rsa out_len out max_out in_ in_len md mgf1_md
      salt_len siglen0).ret = 0 ∧
    (_goboringcrypto_RSA_sign_pss_mgf1 P s0 rsa out_len out max_out in_ in_len md mgf1_md
      salt_len siglen0).out = out ∧
    (_goboringcrypto_RSA_sign_pss_mgf1 P s0 rsa out_len out max_out in_ in_len md mgf1_md
      salt_len siglen0).out_len = out_len ∧
    ∀ ev ∈ (_goboringcrypto_RSA_sign_pss_mgf1 P s0 rsa out_len out max_out in_ in_len md mgf1_md
      salt_len siglen0).trace, ev.writesOutput = false := by
  obtain ⟨pkey, s1, r2, s2, ctx, s3, r4, s4, r5, s5, r6, s6, r7, s7, r8, s8, r9, n9, b9, s9,
    r10, n10, b10, s10,
    h1, h2, h3, h4, h5, h6, h7, h8, h9, h10⟩ :=
    sign_pss_mgf1_chain P s0 rsa out in_ in_len md mgf1_md salt_len siglen0
  have hc := sign_pss_mgf1_paths P s0 rsa out_len out max_out in_ in_len md mgf1_md salt_len siglen0
    h1 h2 h3 h4 h5 h6 h7 h8 h9 h10
  clear h1 h2 h3 h4 h5 h6 h7 h8 h9 h10
  rcases hc with hc | hc | hc | hc | hc | hc | hc | hc | hc | hc | hc | hc
  all_goals simp_all [Event.writesOutput]
  all_goals omega

/-- With a size query reporting 5 bytes and `max_out = 4` the hypotheses of C3
hold, and the call fails with buffer and length untouched. -/
theorem sign_pss_mgf1_capacity_witness :
    Event.EVP_PKEY_sign 3 none 0 [5] 1 1 5 [] ∈ (_goboringcrypto_RSA_sign_pss_mgf1 (scripted
        bigScript) () 7 0 [0, 0, 0, 0] 4 [5] 1 8 9 32
      0).trace ∧
    4 < 5 ∧
    (_goboringcrypto_RSA_sign_pss_mgf1 (scripted bigScript) () 7 0 [0, 0, 0, 0] 4 [5] 1 8 9 32
      0).ret = 0 ∧
    (_goboringcrypto_RSA_sign_pss_mgf1 (scripted bigScript) () 7 0 [0, 0, 0, 0] 4 [5] 1 8 9 32
      0).out = [0, 0, 0, 0] ∧
    (_goboringcrypto_RSA_sign_pss_mgf1 (scripted bigScript) () 7 0 [0, 0, 0, 0] 4 [5] 1 8 9 32
      0).out_len = 0 ∧
    ∀ ev ∈ (_goboringcrypto_RSA_sign_pss_mgf1 (scripted bigScript) () 7 0 [0, 0, 0, 0] 4 [5] 1 8 9
        32
      0).trace, ev.writesOutput = false :=
  ⟨by decide, by decide,
   sign_pss_mgf1_capacity (scripted bigScript) () 7 0 [0, 0, 0, 0] 4 [5] 1 8 9 32 0
     3 0 [5] 1 1 5 [] (by decide) (by decide)⟩

/-- C4, as amended: whenever `_goboringcrypto_RSA_sign_pss_mgf1` returns 1, the
length checked against `max_out` is the one reported by the size query, the
buffer holds what the final signing call left in it, and `*out_len` holds the
length reported by the final signing call reduced modulo `2 ^ 32`.  If the
final call reports no more than the size query did, then `*out_len` is at most
`max_out`, and it is exactly the reported length when `max_out` is an
`unsigned int` value. -/
theorem sign_pss_mgf1_length {σ : Type} (P : Provider σ) (s0 : σ)
    (rsa : Ptr) (out_len : Nat) (out : Buf) (max_out : Nat)
    (in_ : Buf) (in_len : Nat) (md : Ptr) (mgf1_md : Ptr) (salt_len : Int) (siglen0 : Nat) :
    let c1 := P.EVP_PKEY_new s0
    let pkey := c1.1
    let c2 := P.EVP_PKEY_set1_RSA c1.2 pkey rsa
    let c3 := P.EVP_PKEY_CTX_new c2.2 pkey NULL
    let ctx := c3.1
    let c4 := P.EVP_PKEY_sign_init c3.2 ctx
    let c5 := P.EVP_PKEY_CTX_set_rsa_padding c4.2 ctx RSA_PKCS1_PSS_PADDING
    let c6 := P.EVP_PKEY_CTX_set_rsa_pss_saltlen c5.2 ctx salt_len
    let c7 := P.EVP_PKEY_CTX_set_signature_md c6.2 ctx md
    let c8 := P.EVP_PKEY_CTX_set_rsa_mgf1_md c7.2 ctx mgf1_md
    let c9 := P.EVP_PKEY_sign c8.2 ctx none siglen0 in_ in_len
    let c10 := P.EVP_PKEY_sign c9.2 ctx (some out) c9.1.2.1 in_ in_len
    let r := _goboringcrypto_RSA_sign_pss_mgf1 P s0 rsa out_len out max_out in_ in_len md mgf1_md
      salt_len siglen0
    r.ret = 1 →
      c9.1.2.1 ≤ max_out ∧ r.out = c10.1.2.2 ∧ r.out_len = c10.1.2.1 % 2 ^ 32 ∧
      (c10.1.2.1 ≤ c9.1.2.1 →
        r.out_len ≤ max_out ∧ (max_out < 2 ^ 32 → r.out_len = c10.1.2.1)) := by
  obtain ⟨pkey, s1, r2, s2, ctx, s3, r4, s4, r5, s5, r6, s6, r7, s7, r8, s8, r9, n9, b9, s9,
    r10, n10, b10, s10,
    h1, h2, h3, h4, h5, h6, h7, h8, h9, h10⟩ :=
    sign_pss_mgf1_chain P s0 rsa out in_ in_len md mgf1_md salt_len siglen0
  simp only [h1, h2, h3, h4, h5, h6, h7, h8, h9, h10]
  have hc := sign_pss_mgf1_paths P s0 rsa out_len out max_out in_ in_len md mgf1_md salt_len siglen0
    h1 h2 h3 h4 h5 h6 h7 h8 h9 h10
  clear h1 h2 h3 h4 h5 h6 h7 h8 h9 h10
  rcases hc with hc | hc | hc | hc | hc | hc | hc | hc | hc | hc | hc | hc
  all_goals simp_all
  intro h10le
  have hmod : n10 % 2 ^ 32 ≤ n10 := Nat.mod_le _ _
  exact ⟨by omega, fun hmax => by omega⟩

/-- A successful four-byte signature into a four-byte buffer: the hypothesis of
C4 holds and `*out_len` is 4. -/
theorem sign_pss_mgf1_length_witness :
    (_goboringcrypto_RSA_sign_pss_mgf1 (scripted okScript) () 7 0 [0, 0, 0, 0] 4 [5] 1 8 9 32
      0).ret = 1 ∧
    (_goboringcrypto_RSA_sign_pss_mgf1 (scripted okScript) () 7 0 [0, 0, 0, 0] 4 [5] 1 8 9 32
      0).out_len = 4 :=
  ⟨by decide,
   (((sign_pss_mgf1_length (scripted okScript) () 7 0 [0, 0, 0, 0] 4 [5] 1 8 9 32 0
     (by decide)).2.2.2 (by decide)).2 (by decide))⟩

/-- C4 fails as stated: the size query reports 4 bytes, which fits `max_out = 4`,
the final signing call succeeds reporting 8 bytes, and the call returns 1 with
`*out_len = 8`, more than `max_out`. -/
theorem sign_pss_mgf1_length_counterexample :
    (_goboringcrypto_RSA_sign_pss_mgf1 (scripted longScript) () 7 0 [0, 0, 0, 0] 4 [5] 1 8 9 32
      0).ret = 1 ∧
    (_goboringcrypto_RSA_sign_pss_mgf1 (scripted longScript) () 7 0 [0, 0, 0, 0] 4 [5] 1 8 9 32
      0).out_len = 8 ∧
    ¬ (_goboringcrypto_RSA_sign_pss_mgf1 (scripted longScript) () 7 0 [0, 0, 0, 0] 4 [5] 1 8 9 32
      0).out_len ≤ 4 := by
  decide

/-- C6, as amended: a failing call of `_goboringcrypto_RSA_sign_pss_mgf1` never
writes `*out_len`.  When the failure is at key wrapping, context creation,
`sign_init`, a configuration step, the size query or the capacity check, the
signing primitive is never given the caller's buffer and the buffer is
unmodified.  When the final signing call itself fails, the buffer holds
whatever contents that call left in it. -/
theorem sign_pss_mgf1_failure_output {σ : Type} (P : Provider σ) (s0 : σ)
    (rsa : Ptr) (out_len : Nat) (out : Buf) (max_out : Nat)
    (in_ : Buf) (in_len : Nat) (md : Ptr) (mgf1_md : Ptr) (salt_len : Int) (siglen0 : Nat) :
    let c1 := P.EVP_PKEY_new s0
    let pkey := c1.1
    let c2 := P.EVP_PKEY_set1_RSA c1.2 pkey rsa
    let c3 := P.EVP_PKEY_CTX_new c2.2 pkey NULL
    let ctx := c3.1
    let c4 := P.EVP_PKEY_sign_init c3.2 ctx
    let c5 := P.EVP_PKEY_CTX_set_rsa_padding c4.2 ctx RSA_PKCS1_PSS_PADDING
    let c6 := P.EVP_PKEY_CTX_set_rsa_pss_saltlen c5.2 ctx salt_len
    let c7 := P.EVP_PKEY_CTX_set_signature_md c6.2 ctx md
    let c8 := P.EVP_PKEY_CTX_set_rsa_mgf1_md c7.2 ctx mgf1_md
    let c9 := P.EVP_PKEY_sign c8.2 ctx none siglen0 in_ in_len
    let c10 := P.EVP_PKEY_sign c9.2 ctx (some out) c9.1.2.1 in_ in_len
    let r := _goboringcrypto_RSA_sign_pss_mgf1 P s0 rsa out_len out max_out in_ in_len md mgf1_md
      salt_len siglen0
    (r.ret = 0 → r.out_len = out_len) ∧
    (¬ (pkey ≠ NULL ∧ 0 < c2.1 ∧ ctx ≠ NULL ∧ 0 < c4.1 ∧ 0 < c5.1 ∧ 0 < c6.1 ∧ 0 < c7.1 ∧
        0 < c8.1 ∧ 0 < c9.1.1 ∧ c9.1.2.1 ≤ max_out) →
      r.ret = 0 ∧ r.out = out ∧ ∀ ev ∈ r.trace, ev.writesOutput = false) ∧
    (pkey ≠ NULL ∧ 0 < c2.1 ∧ ctx ≠ NULL ∧ 0 < c4.1 ∧ 0 < c5.1 ∧ 0 < c6.1 ∧ 0 < c7.1 ∧
        0 < c8.1 ∧ 0 < c9.1.1 ∧ c9.1.2.1 ≤ max_out →
      c10.1.1 ≤ 0 → r.ret = 0 ∧ r.out = c10.1.2.2) := by
  obtain ⟨pkey, s1, r2, s2, ctx, s3, r4, s4, r5, s5, r6, s6, r7, s7, r8, s8, r9, n9, b9, s9,
    r10, n10, b10, s10,
    h1, h2, h3, h4, h5, h6, h7, h8, h9, h10⟩ :=
    sign_pss_mgf1_chain P s0 rsa out in_ in_len md mgf1_md salt_len siglen0
  simp only [h1, h2, h3, h4, h5, h6, h7, h8, h9, h10]
  have hc := sign_pss_mgf1_paths P s0 rsa out_len out max_out in_ in_len md mgf1_md salt_len siglen0
    h1 h2 h3 h4 h5 h6 h7 h8 h9 h10
  clear h1 h2 h3 h4 h5 h6 h7 h8 h9 h10
  rcases hc with hc | hc | hc | hc | hc | hc | hc | hc | hc | hc | hc | hc
  all_goals simp_all [Event.writesOutput]

/-- C6 fails as stated: the final signing call fails after overwriting the
buffer it was given; the call returns 0 and the caller's buffer, `[0, 0, 0, 0]`
before the call, holds `[9, 9, 9, 9]`. -/
theorem sign_pss_mgf1_failure_output_counterexample :
    (_goboringcrypto_RSA_sign_pss_mgf1 (scripted dirtyScript) () 7 0 [0, 0, 0, 0] 4 [5] 1 8 9 32
      0).ret = 0 ∧
    (_goboringcrypto_RSA_sign_pss_mgf1 (scripted dirtyScript) () 7 0 [0, 0, 0, 0] 4 [5] 1 8 9 32
      0).out = [9, 9, 9, 9] ∧
    (_goboringcrypto_RSA_sign_pss_mgf1 (scripted dirtyScript) () 7 0 [0, 0, 0, 0] 4 [5] 1 8 9 32
      0).out ≠ [0, 0, 0, 0] := by
  decide

/-! ## PSS verification -/

/-- C2: `_goboringcrypto_RSA_verify_pss_mgf1` returns 1 if and only if key
wrapping, context creation, `verify_init`, the four configuration steps and the
verification primitive all succeed (non-null, or result `> 0`); any failure,
whatever non-positive value the failing primitive returned, gives 0, so the
result is always exactly 0 or 1. -/
theorem verify_pss_mgf1_result {σ : Type} (P : Provider σ) (s0 : σ)
    (rsa : Ptr) (msg : Buf) (msg_len : Nat) (md : Ptr) (mgf1_md : Ptr) (salt_len : Int)
    (sig : Buf) (sig_len : Nat) :
    let c1 := P.EVP_PKEY_new s0
    let pkey := c1.1
    let c2 := P.EVP_PKEY_set1_RSA c1.2 pkey rsa
    let c3 := P.EVP_PKEY_CTX_new c2.2 pkey NULL
    let ctx := c3.1
    let c4 := P.EVP_PKEY_verify_init c3.2 ctx
    let c5 := P.EVP_PKEY_CTX_set_rsa_padding c4.2 ctx RSA_PKCS1_PSS_PADDING
    let c6 := P.EVP_PKEY_CTX_set_rsa_pss_saltlen c5.2 ctx salt_len
    let c7 := P.EVP_PKEY_CTX_set_signature_md c6.2 ctx md
    let c8 := P.EVP_PKEY_CTX_set_rsa_mgf1_md c7.2 ctx mgf1_md
    let c9 := P.EVP_PKEY_verify c8.2 ctx sig sig_len msg msg_len
    let r := _goboringcrypto_RSA_verify_pss_mgf1 P s0 rsa msg msg_len md mgf1_md salt_len sig
        sig_len
    (r.ret = 1 ↔ pkey ≠ NULL ∧ 0 < c2.1 ∧ ctx ≠ NULL ∧ 0 < c4.1 ∧ 0 < c5.1 ∧ 0 < c6.1 ∧
      0 < c7.1 ∧ 0 < c8.1 ∧ 0 < c9.1) ∧
    (r.ret = 0 ∨ r.ret = 1) ∧
    (¬ (pkey ≠ NULL ∧ 0 < c2.1 ∧ ctx ≠ NULL ∧ 0 < c4.1 ∧ 0 < c5.1 ∧ 0 < c6.1 ∧
      0 < c7.1 ∧ 0 < c8.1 ∧ 0 < c9.1) → r.ret = 0) := by
  obtain ⟨pkey, s1, r2, s2, ctx, s3, r4, s4, r5, s5, r6, s6, r7, s7, r8, s8, r9, s9,
    h1, h2, h3, h4, h5, h6, h7, h8, h9⟩ :=
    verify_pss_mgf1_chain P s0 rsa msg msg_len md mgf1_md salt_len sig sig_len
  simp only [h1, h2, h3, h4, h5, h6, h7, h8, h9]
  have hc := verify_pss_mgf1_paths P s0 rsa msg msg_len md mgf1_md salt_len sig sig_len
    h1 h2 h3 h4 h5 h6 h7 h8 h9
  clear h1 h2 h3 h4 h5 h6 h7 h8 h9
  rcases hc with hc | hc | hc | hc | hc | hc | hc | hc | hc | hc
  all_goals simp_all

/-! ## Release of transient handles -/

/-- The handles live at the return of `_goboringcrypto_RSA_sign_pss_mgf1`: none
when `EVP_PKEY_new` failed, otherwise exactly the wrapped key; no call of the
function releases a wrapped key. -/
theorem sign_pss_mgf1_live {σ : Type} (P : Provider σ) (s0 : σ)
    (rsa : Ptr) (out_len : Nat) (out : Buf) (max_out : Nat)
    (in_ : Buf) (in_len : Nat) (md : Ptr) (mgf1_md : Ptr) (salt_len : Int) (siglen0 : Nat) :
    let pkey := (P.EVP_PKEY_new s0).1
    let t := (_goboringcrypto_RSA_sign_pss_mgf1 P s0 rsa out_len out max_out in_ in_len md mgf1_md
      salt_len siglen0).trace
    live t = (if pkey = NULL then [] else [Resource.pkey pkey]) ∧
    ∀ ev ∈ t, ∀ p : Ptr, ev.releases ≠ some (Resource.pkey p) := by
  obtain ⟨pkey, s1, r2, s2, ctx, s3, r4, s4, r5, s5, r6, s6, r7, s7, r8, s8, r9, n9, b9, s9,
    r10, n10, b10, s10,
    h1, h2, h3, h4, h5, h6, h7, h8, h9, h10⟩ :=
    sign_pss_mgf1_chain P s0 rsa out in_ in_len md mgf1_md salt_len siglen0
  simp only [h1, h2, h3, h4, h5, h6, h7, h8, h9, h10]
  have hc := sign_pss_mgf1_paths P s0 rsa out_len out max_out in_ in_len md mgf1_md salt_len siglen0
    h1 h2 h3 h4 h5 h6 h7 h8 h9 h10
  clear h1 h2 h3 h4 h5 h6 h7 h8 h9 h10
  rcases hc with hc | hc | hc | hc | hc | hc | hc | hc | hc | hc | hc | hc
  all_goals simp_all [live, liveStep, Event.acquires, Event.releases]

/-- The handles live at the return of `_goboringcrypto_RSA_verify_pss_mgf1`:
none when `EVP_PKEY_new` failed, otherwise exactly the wrapped key; no call of
the function releases a wrapped key. -/
theorem verify_pss_mgf1_live {σ : Type} (P : Provider σ) (s0 : σ)
    (rsa : Ptr) (msg : Buf) (msg_len : Nat) (md : Ptr) (mgf1_md : Ptr) (salt_len : Int)
    (sig : Buf) (sig_len : Nat) :
    let pkey := (P.EVP_PKEY_new s0).1
    let t := (_goboringcrypto_RSA_verify_pss_mgf1 P s0 rsa msg msg_len md mgf1_md salt_len sig
        sig_len).trace
    live t = (if pkey = NULL then [] else [Resource.pkey pkey]) ∧
    ∀ ev ∈ t, ∀ p : Ptr, ev.releases ≠ some (Resource.pkey p) := by
  obtain ⟨pkey, s1, r2, s2, ctx, s3, r4, s4, r5, s5, r6, s6, r7, s7, r8, s8, r9, s9,
    h1, h2, h3, h4, h5, h6, h7, h8, h9⟩ :=
    verify_pss_mgf1_chain P s0 rsa msg msg_len md mgf1_md salt_len sig sig_len
  simp only [h1, h2, h3, h4, h5, h6, h7, h8, h9]
  have hc := verify_pss_mgf1_paths P s0 rsa msg msg_len md mgf1_md salt_len sig sig_len
    h1 h2 h3 h4 h5 h6 h7 h8 h9
  clear h1 h2 h3 h4 h5 h6 h7 h8 h9
  rcases hc with hc | hc | hc | hc | hc | hc | hc | hc | hc | hc
  all_goals simp_all [live, liveStep, Event.acquires, Event.releases]

/-- C5 fails on the code: whenever `EVP_PKEY_new` succeeds, on every exit path
of `_goboringcrypto_RSA_sign_pss_mgf1` and of
`_goboringcrypto_RSA_verify_pss_mgf1` the wrapped key handle is still live at
return and no call made by either function releases it, while every context
that was created has been released. -/
theorem pss_wrapped_key_leak {σ : Type} (P : Provider σ) (s0 : σ)
    (rsa : Ptr) (out_len : Nat) (out : Buf) (max_out : Nat)
    (in_ : Buf) (in_len : Nat) (md : Ptr) (mgf1_md : Ptr) (salt_len : Int) (siglen0 : Nat)
    (msg : Buf) (msg_len : Nat) (sig : Buf) (sig_len : Nat)
    (hp : (P.EVP_PKEY_new s0).1 ≠ NULL) :
    live (_goboringcrypto_RSA_sign_pss_mgf1 P s0 rsa out_len out max_out in_ in_len md mgf1_md
      salt_len siglen0).trace = [Resource.pkey (P.EVP_PKEY_new s0).1] ∧
    live (_goboringcrypto_RSA_verify_pss_mgf1 P s0 rsa msg msg_len md mgf1_md salt_len sig
        sig_len).trace
      = [Resource.pkey (P.EVP_PKEY_new s0).1] ∧
    (∀ ev ∈ (_goboringcrypto_RSA_sign_pss_mgf1 P s0 rsa out_len out max_out in_ in_len md mgf1_md
      salt_len siglen0).trace ++
        (_goboringcrypto_RSA_verify_pss_mgf1 P s0 rsa msg msg_len md mgf1_md salt_len sig
            sig_len).trace,
      ∀ p : Ptr, ev.releases ≠ some (Resource.pkey p)) := by
  have hS := sign_pss_mgf1_live P s0 rsa out_len out max_out in_ in_len md mgf1_md salt_len siglen0
  have hV := verify_pss_mgf1_live P s0 rsa msg msg_len md mgf1_md salt_len sig sig_len
  simp only [if_neg hp] at hS hV
  refine ⟨hS.1, hV.1, ?_⟩
  intro ev hev
  rcases List.mem_append.mp hev with h | h
  · exact hS.2 ev h
  · exact hV.2 ev h

/-- With every primitive succeeding, the wrapped key (handle 2) is live at the
return of both operations. -/
theorem pss_wrapped_key_leak_witness :
    ((scripted okScript).EVP_PKEY_new ()).1 ≠ NULL ∧
    live (_goboringcrypto_RSA_sign_pss_mgf1 (scripted okScript) () 7 0 [0, 0, 0, 0] 4 [5] 1 8 9 32
      0).trace = [Resource.pkey 2] ∧
    live (_goboringcrypto_RSA_verify_pss_mgf1 (scripted okScript) () 7 [5] 1 8 9 32 [1, 2, 3, 4]
      4).trace = [Resource.pkey 2] :=
  ⟨by decide,
   (pss_wrapped_key_leak (scripted okScript) () 7 0 [0, 0, 0, 0] 4 [5] 1 8 9 32 0 [5] 1
     [1, 2, 3, 4] 4 (by decide)).1,
   (pss_wrapped_key_leak (scripted okScript) () 7 0 [0, 0, 0, 0] 4 [5] 1 8 9 32 0 [5] 1
     [1, 2, 3, 4] 4 (by decide)).2.1⟩

/-! ## The configuration sequence -/

set_option maxHeartbeats 4000000 in
/-- Signing makes its calls in the order of the source, each one exactly when
every earlier one succeeded: after a successful `sign_init` it runs the
spec's configuration sequence, cut after the first failed step, and it calls
the signing primitive exactly when all four steps succeeded; a failed step
leads to the release of the context on the state that step left and to the
result 0. -/
theorem sign_pss_mgf1_configured {σ : Type} (P : Provider σ) (s0 : σ)
    (rsa : Ptr) (out_len : Nat) (out : Buf) (max_out : Nat)
    (in_ : Buf) (in_len : Nat) (md : Ptr) (mgf1_md : Ptr) (salt_len : Int) (siglen0 : Nat) :
    let c1 := P.EVP_PKEY_new s0
    let pkey := c1.1
    let c2 := P.EVP_PKEY_set1_RSA c1.2 pkey rsa
    let c3 := P.EVP_PKEY_CTX_new c2.2 pkey NULL
    let ctx := c3.1
    let c4 := P.EVP_PKEY_sign_init c3.2 ctx
    let c5 := P.EVP_PKEY_CTX_set_rsa_padding c4.2 ctx RSA_PKCS1_PSS_PADDING
    let c6 := P.EVP_PKEY_CTX_set_rsa_pss_saltlen c5.2 ctx salt_len
    let c7 := P.EVP_PKEY_CTX_set_signature_md c6.2 ctx md
    let c8 := P.EVP_PKEY_CTX_set_rsa_mgf1_md c7.2 ctx mgf1_md
    let c9 := P.EVP_PKEY_sign c8.2 ctx none siglen0 in_ in_len
    let r := _goboringcrypto_RSA_sign_pss_mgf1 P s0 rsa out_len out max_out in_ in_len md mgf1_md
      salt_len siglen0
    ConfiguredInOrder Event.EVP_PKEY_sign_init ctx salt_len md mgf1_md r.trace ∧
    r.trace.filter Event.isConfig =
      configurationOf salt_len md mgf1_md (r.trace.filterMap Event.setupOutcome) ∧
    ((∃ ev ∈ r.trace, ev.failed = true) → r.ret = 0) ∧
    r.trace.head? = some (Event.EVP_PKEY_new pkey) ∧
    (Event.EVP_PKEY_set1_RSA pkey rsa c2.1 ∈ r.trace ↔ pkey ≠ NULL) ∧
    (Event.EVP_PKEY_CTX_new pkey NULL ctx ∈ r.trace ↔ pkey ≠ NULL ∧ 0 < c2.1) ∧
    (Event.EVP_PKEY_sign_init ctx c4.1 ∈ r.trace ↔ pkey ≠ NULL ∧ 0 < c2.1 ∧ ctx ≠ NULL) ∧
    r.trace.filter Event.isConfig =
      (if pkey ≠ NULL ∧ 0 < c2.1 ∧ ctx ≠ NULL ∧ 0 < c4.1 then
        spec_configuration_run ctx salt_len md mgf1_md [c5.1, c6.1, c7.1, c8.1]
      else []) ∧
    (Event.EVP_PKEY_sign ctx none siglen0 in_ in_len c9.1.1 c9.1.2.1 c9.1.2.2 ∈ r.trace ↔
      pkey ≠ NULL ∧ 0 < c2.1 ∧ ctx ≠ NULL ∧ 0 < c4.1 ∧ 0 < c5.1 ∧ 0 < c6.1 ∧ 0 < c7.1 ∧
        0 < c8.1) ∧
    ((∃ ev ∈ r.trace, ev.isExecute = true) ↔
      pkey ≠ NULL ∧ 0 < c2.1 ∧ ctx ≠ NULL ∧ 0 < c4.1 ∧ 0 < c5.1 ∧ 0 < c6.1 ∧ 0 < c7.1 ∧
        0 < c8.1) ∧
    (pkey ≠ NULL ∧ 0 < c2.1 ∧ ctx ≠ NULL →
      ¬ (0 < c4.1 ∧ 0 < c5.1 ∧ 0 < c6.1 ∧ 0 < c7.1 ∧ 0 < c8.1) →
      r.ret = 0 ∧
      r.st = P.EVP_PKEY_CTX_free
        (if c4.1 ≤ 0 then c4.2 else if c5.1 ≤ 0 then c5.2 else if c6.1 ≤ 0 then c6.2
          else if c7.1 ≤ 0 then c7.2 else c8.2) ctx) := by
  obtain ⟨pkey, s1, r2, s2, ctx, s3, r4, s4, r5, s5, r6, s6, r7, s7, r8, s8, r9, n9, b9, s9,
    r10, n10, b10, s10,
    h1, h2, h3, h4, h5, h6, h7, h8, h9, h10⟩ :=
    sign_pss_mgf1_chain P s0 rsa out in_ in_len md mgf1_md salt_len siglen0
  simp only [h1, h2, h3, h4, h5, h6, h7, h8, h9, h10]
  have hc := sign_pss_mgf1_paths P s0 rsa out_len out max_out in_ in_len md mgf1_md salt_len siglen0
    h1 h2 h3 h4 h5 h6 h7 h8 h9 h10
  clear h1 h2 h3 h4 h5 h6 h7 h8 h9 h10
  rcases hc with hc | hc | hc | hc | hc | hc | hc | hc | hc | hc | hc | hc
  all_goals obtain ⟨hcond, hr⟩ := hc
  all_goals have hn1 := hcond
  all_goals have hn2 := hcond
  all_goals try simp only [← not_lt] at hn1
  all_goals try simp only [← not_le] at hn2
  all_goals simp only [hr]
  all_goals unfold ConfiguredInOrder
  all_goals refine ⟨⟨?_, ?_, ?_, ?_, ?_⟩, ?_, ?_, ?_, ?_, ?_, ?_, ?_, ?_, ?_⟩
  all_goals simp [spec_configuration_sequence, configurationOf, Event.isConfig, Event.configRet,
    Event.isExecute, Event.failed, Event.releases, Event.setupOutcome, Outcome.status?,
    spec_configuration_run, cutAfterFailure, hcond, hn1, hn2]

set_option maxHeartbeats 4000000 in
/-- Verification makes its calls in the order of the source, each one exactly
when every earlier one succeeded: after a successful `verify_init` it runs the
spec's configuration sequence, cut after the first failed step, and it calls
the verification primitive exactly when all four steps succeeded; a failed
step leads to the release of the context on the state that step left and to
the result 0. -/
theorem verify_pss_mgf1_configured {σ : Type} (P : Provider σ) (s0 : σ)
    (rsa : Ptr) (msg : Buf) (msg_len : Nat) (md : Ptr) (mgf1_md : Ptr) (salt_len : Int)
    (sig : Buf) (sig_len : Nat) :
    let c1 := P.EVP_PKEY_new s0
    let pkey := c1.1
    let c2 := P.EVP_PKEY_set1_RSA c1.2 pkey rsa
    let c3 := P.EVP_PKEY_CTX_new c2.2 pkey NULL
    let ctx := c3.1
    let c4 := P.EVP_PKEY_verify_init c3.2 ctx
    let c5 := P.EVP_PKEY_CTX_set_rsa_padding c4.2 ctx RSA_PKCS1_PSS_PADDING
    let c6 := P.EVP_PKEY_CTX_set_rsa_pss_saltlen c5.2 ctx salt_len
    let c7 := P.EVP_PKEY_CTX_set_signature_md c6.2 ctx md
    let c8 := P.EVP_PKEY_CTX_set_rsa_mgf1_md c7.2 ctx mgf1_md
    let c9 := P.EVP_PKEY_verify c8.2 ctx sig sig_len msg msg_len
    let r := _goboringcrypto_RSA_verify_pss_mgf1 P s0 rsa msg msg_len md mgf1_md salt_len sig
        sig_len
    ConfiguredInOrder Event.EVP_PKEY_verify_init ctx salt_len md mgf1_md r.trace ∧
    r.trace.filter Event.isConfig =
      configurationOf salt_len md mgf1_md (r.trace.filterMap Event.setupOutcome) ∧
    ((∃ ev ∈ r.trace, ev.failed = true) → r.ret = 0) ∧
    r.trace.head? = some (Event.EVP_PKEY_new pkey) ∧
    (Event.EVP_PKEY_set1_RSA pkey rsa c2.1 ∈ r.trace ↔ pkey ≠ NULL) ∧
    (Event.EVP_PKEY_CTX_new pkey NULL ctx ∈ r.trace ↔ pkey ≠ NULL ∧ 0 < c2.1) ∧
    (Event.EVP_PKEY_verify_init ctx c4.1 ∈ r.trace ↔ pkey ≠ NULL ∧ 0 < c2.1 ∧ ctx ≠ NULL) ∧
    r.trace.filter Event.isConfig =
      (if pkey ≠ NULL ∧ 0 < c2.1 ∧ ctx ≠ NULL ∧ 0 < c4.1 then
        spec_configuration_run ctx salt_len md mgf1_md [c5.1, c6.1, c7.1, c8.1]
      else []) ∧
    (Event.EVP_PKEY_verify ctx sig sig_len msg msg_len c9.1 ∈ r.trace ↔
      pkey ≠ NULL ∧ 0 < c2.1 ∧ ctx ≠ NULL ∧ 0 < c4.1 ∧ 0 < c5.1 ∧ 0 < c6.1 ∧ 0 < c7.1 ∧
        0 < c8.1) ∧
    ((∃ ev ∈ r.trace, ev.isExecute = true) ↔
      pkey ≠ NULL ∧ 0 < c2.1 ∧ ctx ≠ NULL ∧ 0 < c4.1 ∧ 0 < c5.1 ∧ 0 < c6.1 ∧ 0 < c7.1 ∧
        0 < c8.1) ∧
    (pkey ≠ NULL ∧ 0 < c2.1 ∧ ctx ≠ NULL →
      ¬ (0 < c4.1 ∧ 0 < c5.1 ∧ 0 < c6.1 ∧ 0 < c7.1 ∧ 0 < c8.1) →
      r.ret = 0 ∧
      r.st = P.EVP_PKEY_CTX_free
        (if c4.1 ≤ 0 then c4.2 else if c5.1 ≤ 0 then c5.2 else if c6.1 ≤ 0 then c6.2
          else if c7.1 ≤ 0 then c7.2 else c8.2) ctx) := by
  obtain ⟨pkey, s1, r2, s2, ctx, s3, r4, s4, r5, s5, r6, s6, r7, s7, r8, s8, r9, s9,
    h1, h2, h3, h4, h5, h6, h7, h8, h9⟩ :=
    verify_pss_mgf1_chain P s0 rsa msg msg_len md mgf1_md salt_len sig sig_len
  simp only [h1, h2, h3, h4, h5, h6, h7, h8, h9]
  have hc := verify_pss_mgf1_paths P s0 rsa msg msg_len md mgf1_md salt_len sig sig_len
    h1 h2 h3 h4 h5 h6 h7 h8 h9
  clear h1 h2 h3 h4 h5 h6 h7 h8 h9
  rcases hc with hc | hc | hc | hc | hc | hc | hc | hc | hc | hc
  all_goals obtain ⟨hcond, hr⟩ := hc
  all_goals have hn1 := hcond
  all_goals have hn2 := hcond
  all_goals try simp only [← not_lt] at hn1
  all_goals try simp only [← not_le] at hn2
  all_goals simp only [hr]
  all_goals unfold ConfiguredInOrder
  all_goals refine ⟨⟨?_, ?_, ?_, ?_, ?_⟩, ?_, ?_, ?_, ?_, ?_, ?_, ?_, ?_, ?_⟩
  all_goals simp [spec_configuration_sequence, configurationOf, Event.isConfig, Event.configRet,
    Event.isExecute, Event.failed, Event.releases, Event.setupOutcome, Outcome.status?,
    spec_configuration_run, cutAfterFailure, hcond, hn1, hn2]

/-- C10: signing and verification run the identical, fixed configuration
sequence.  In each operation, with the result of every primitive along the
call chain named:

* `sign_init` (signing) or `verify_init` (verification) is called exactly when
  key wrapping and context creation succeeded;
* the configuration calls are exactly the spec's sequence on the context that
  was created, in this order, padding = `RSA_PKCS1_PSS_PADDING`, salt length =
  the caller's `salt_len`, signature digest = `md`, mask-generation digest =
  `mgf1_md`, each with the result the provider gives it on the state the
  preceding call left, cut after the first step that did not return `> 0`;
  there is none unless the initialisation returned `> 0`;
* the signing or verification primitive is called exactly when the
  initialisation and all four steps returned `> 0`;
* when the initialisation or a step fails, the operation returns 0 and the
  context is released on the state the failed call left.

For equal `md`, `mgf1_md`, `salt_len` and equal outcomes of the primitives
(wrapped key, key binding, context, initialisation and the four steps) the
configuration call traces of the two operations are equal. -/
theorem pss_configuration_sequence {σ τ : Type} (P : Provider σ) (s0 : σ)
    (Q : Provider τ) (q0 : τ)
    (rsa : Ptr) (out_len : Nat) (out : Buf) (max_out : Nat) (in_ : Buf) (in_len : Nat)
    (siglen0 : Nat) (rsa' : Ptr) (msg : Buf) (msg_len : Nat) (sig : Buf) (sig_len : Nat)
    (md : Ptr) (mgf1_md : Ptr) (salt_len : Int) :
    let p1 := P.EVP_PKEY_new s0
    let pkeyS := p1.1
    let p2 := P.EVP_PKEY_set1_RSA p1.2 pkeyS rsa
    let p3 := P.EVP_PKEY_CTX_new p2.2 pkeyS NULL
    let ctxS := p3.1
    let p4 := P.EVP_PKEY_sign_init p3.2 ctxS
    let p5 := P.EVP_PKEY_CTX_set_rsa_padding p4.2 ctxS RSA_PKCS1_PSS_PADDING
    let p6 := P.EVP_PKEY_CTX_set_rsa_pss_saltlen p5.2 ctxS salt_len
    let p7 := P.EVP_PKEY_CTX_set_signature_md p6.2 ctxS md
    let p8 := P.EVP_PKEY_CTX_set_rsa_mgf1_md p7.2 ctxS mgf1_md
    let p9 := P.EVP_PKEY_sign p8.2 ctxS none siglen0 in_ in_len
    let q1 := Q.EVP_PKEY_new q0
    let pkeyV := q1.1
    let q2 := Q.EVP_PKEY_set1_RSA q1.2 pkeyV rsa'
    let q3 := Q.EVP_PKEY_CTX_new q2.2 pkeyV NULL
    let ctxV := q3.1
    let q4 := Q.EVP_PKEY_verify_init q3.2 ctxV
    let q5 := Q.EVP_PKEY_CTX_set_rsa_padding q4.2 ctxV RSA_PKCS1_PSS_PADDING
    let q6 := Q.EVP_PKEY_CTX_set_rsa_pss_saltlen q5.2 ctxV salt_len
    let q7 := Q.EVP_PKEY_CTX_set_signature_md q6.2 ctxV md
    let q8 := Q.EVP_PKEY_CTX_set_rsa_mgf1_md q7.2 ctxV mgf1_md
    let q9 := Q.EVP_PKEY_verify q8.2 ctxV sig sig_len msg msg_len
    let rS := _goboringcrypto_RSA_sign_pss_mgf1 P s0 rsa out_len out max_out in_ in_len md mgf1_md
      salt_len siglen0
    let rV := _goboringcrypto_RSA_verify_pss_mgf1 Q q0 rsa' msg msg_len md mgf1_md salt_len sig
        sig_len
    ConfiguredInOrder Event.EVP_PKEY_sign_init ctxS salt_len md mgf1_md rS.trace ∧
    ConfiguredInOrder Event.EVP_PKEY_verify_init ctxV salt_len md mgf1_md rV.trace ∧
    ((∃ ev ∈ rS.trace, ev.failed = true) → rS.ret = 0) ∧
    ((∃ ev ∈ rV.trace, ev.failed = true) → rV.ret = 0) ∧
    (rS.trace.filterMap Event.setupOutcome = rV.trace.filterMap Event.setupOutcome →
      rS.trace.filter Event.isConfig = rV.trace.filter Event.isConfig) ∧
    (pkeyS = pkeyV → p2.1 = q2.1 → ctxS = ctxV → p4.1 = q4.1 → p5.1 = q5.1 → p6.1 = q6.1 →
      p7.1 = q7.1 → p8.1 = q8.1 →
      rS.trace.filter Event.isConfig = rV.trace.filter Event.isConfig) ∧
    rS.trace.head? = some (Event.EVP_PKEY_new pkeyS) ∧
    (Event.EVP_PKEY_set1_RSA pkeyS rsa p2.1 ∈ rS.trace ↔ pkeyS ≠ NULL) ∧
    (Event.EVP_PKEY_CTX_new pkeyS NULL ctxS ∈ rS.trace ↔ pkeyS ≠ NULL ∧ 0 < p2.1) ∧
    (Event.EVP_PKEY_sign_init ctxS p4.1 ∈ rS.trace ↔ pkeyS ≠ NULL ∧ 0 < p2.1 ∧ ctxS ≠ NULL) ∧
    rS.trace.filter Event.isConfig =
      (if pkeyS ≠ NULL ∧ 0 < p2.1 ∧ ctxS ≠ NULL ∧ 0 < p4.1 then
        spec_configuration_run ctxS salt_len md mgf1_md [p5.1, p6.1, p7.1, p8.1]
      else []) ∧
    (Event.EVP_PKEY_sign ctxS none siglen0 in_ in_len p9.1.1 p9.1.2.1 p9.1.2.2 ∈ rS.trace ↔
      pkeyS ≠ NULL ∧ 0 < p2.1 ∧ ctxS ≠ NULL ∧ 0 < p4.1 ∧ 0 < p5.1 ∧ 0 < p6.1 ∧ 0 < p7.1 ∧
        0 < p8.1) ∧
    ((∃ ev ∈ rS.trace, ev.isExecute = true) ↔
      pkeyS ≠ NULL ∧ 0 < p2.1 ∧ ctxS ≠ NULL ∧ 0 < p4.1 ∧ 0 < p5.1 ∧ 0 < p6.1 ∧ 0 < p7.1 ∧
        0 < p8.1) ∧
    (pkeyS ≠ NULL ∧ 0 < p2.1 ∧ ctxS ≠ NULL →
      ¬ (0 < p4.1 ∧ 0 < p5.1 ∧ 0 < p6.1 ∧ 0 < p7.1 ∧ 0 < p8.1) →
      rS.ret = 0 ∧
      rS.st = P.EVP_PKEY_CTX_free
        (if p4.1 ≤ 0 then p4.2 else if p5.1 ≤ 0 then p5.2 else if p6.1 ≤ 0 then p6.2
          else if p7.1 ≤ 0 then p7.2 else p8.2) ctxS) ∧
    rV.trace.head? = some (Event.EVP_PKEY_new pkeyV) ∧
    (Event.EVP_PKEY_set1_RSA pkeyV rsa' q2.1 ∈ rV.trace ↔ pkeyV ≠ NULL) ∧
    (Event.EVP_PKEY_CTX_new pkeyV NULL ctxV ∈ rV.trace ↔ pkeyV ≠ NULL ∧ 0 < q2.1) ∧
    (Event.EVP_PKEY_verify_init ctxV q4.1 ∈ rV.trace ↔ pkeyV ≠ NULL ∧ 0 < q2.1 ∧ ctxV ≠ NULL) ∧
    rV.trace.filter Event.isConfig =
      (if pkeyV ≠ NULL ∧ 0 < q2.1 ∧ ctxV ≠ NULL ∧ 0 < q4.1 then
        spec_configuration_run ctxV salt_len md mgf1_md [q5.1, q6.1, q7.1, q8.1]
      else []) ∧
    (Event.EVP_PKEY_verify ctxV sig sig_len msg msg_len q9.1 ∈ rV.trace ↔
      pkeyV ≠ NULL ∧ 0 < q2.1 ∧ ctxV ≠ NULL ∧ 0 < q4.1 ∧ 0 < q5.1 ∧ 0 < q6.1 ∧ 0 < q7.1 ∧
        0 < q8.1) ∧
    ((∃ ev ∈ rV.trace, ev.isExecute = true) ↔
      pkeyV ≠ NULL ∧ 0 < q2.1 ∧ ctxV ≠ NULL ∧ 0 < q4.1 ∧ 0 < q5.1 ∧ 0 < q6.1 ∧ 0 < q7.1 ∧
        0 < q8.1) ∧
    (pkeyV ≠ NULL ∧ 0 < q2.1 ∧ ctxV ≠ NULL →
      ¬ (0 < q4.1 ∧ 0 < q5.1 ∧ 0 < q6.1 ∧ 0 < q7.1 ∧ 0 < q8.1) →
      rV.ret = 0 ∧
      rV.st = Q.EVP_PKEY_CTX_free
        (if q4.1 ≤ 0 then q4.2 else if q5.1 ≤ 0 then q5.2 else if q6.1 ≤ 0 then q6.2
          else if q7.1 ≤ 0 then q7.2 else q8.2) ctxV) := by
  obtain ⟨pkey, s1, r2, s2, ctx, s3, r4, s4, r5, s5, r6, s6, r7, s7, r8, s8, r9, n9, b9, s9,
    r10, n10, b10, s10, h1, h2, h3, h4, h5, h6, h7, h8, h9, h10⟩ :=
    sign_pss_mgf1_chain P s0 rsa out in_ in_len md mgf1_md salt_len siglen0
  obtain ⟨pkeyV, t1, u2, t2, ctxV, t3, u4, t4, u5, t5, u6, t6, u7, t7, u8, t8, u9, t9,
    g1, g2, g3, g4, g5, g6, g7, g8, g9⟩ :=
    verify_pss_mgf1_chain Q q0 rsa' msg msg_len md mgf1_md salt_len sig sig_len
  have hS := sign_pss_mgf1_configured P s0 rsa out_len out max_out in_ in_len md mgf1_md salt_len
    siglen0
  have hV := verify_pss_mgf1_configured Q q0 rsa' msg msg_len md mgf1_md salt_len sig sig_len
  simp only [h1, h2, h3, h4, h5, h6, h7, h8, h9] at hS
  simp only [g1, g2, g3, g4, g5, g6, g7, g8, g9] at hV
  simp only [h1, h2, h3, h4, h5, h6, h7, h8, h9, g1, g2, g3, g4, g5, g6, g7, g8, g9]
  clear h1 h2 h3 h4 h5 h6 h7 h8 h9 h10 g1 g2 g3 g4 g5 g6 g7 g8 g9
  obtain ⟨a1, a2, a3, a4, a5, a6, a7, a8, a9, a10, a11⟩ := hS
  obtain ⟨b1, b2, b3, b4, b5, b6, b7, b8, b9, b10, b11⟩ := hV
  refine ⟨a1, b1, a3, b3, fun h => a2.trans ((congrArg _ h).trans b2.symm), ?_,
    a4, a5, a6, a7, a8, a9, a10, a11, b4, b5, b6, b7, b8, b9, b10, b11⟩
  intro e1 e2 e3 e4 e5 e6 e7 e8
  subst e1 e2 e3 e4 e5 e6 e7 e8
  rw [a8, b8]

/-- With every primitive succeeding in both operations the outcomes of the
primitives agree, and both operations make the same four configuration
calls. -/
theorem pss_configuration_sequence_witness :
    (_goboringcrypto_RSA_sign_pss_mgf1 (scripted okScript) () 7 0 [0, 0, 0, 0] 4 [5] 1 8 9 32
      0).trace.filter Event.isConfig =
      (_goboringcrypto_RSA_verify_pss_mgf1 (scripted okScript) () 7 [5] 1 8 9 32 [1, 2, 3, 4]
      4).trace.filter Event.isConfig ∧
    (_goboringcrypto_RSA_verify_pss_mgf1 (scripted okScript) () 7 [5] 1 8 9 32 [1, 2, 3, 4]
      4).trace.filter Event.isConfig =
      [Event.EVP_PKEY_CTX_set_rsa_padding 3 RSA_PKCS1_PSS_PADDING 1,
       Event.EVP_PKEY_CTX_set_rsa_pss_saltlen 3 32 1,
       Event.EVP_PKEY_CTX_set_signature_md 3 8 1,
       Event.EVP_PKEY_CTX_set_rsa_mgf1_md 3 9 1] :=
  ⟨(pss_configuration_sequence (scripted okScript) () (scripted okScript) () 7 0 [0, 0, 0, 0] 4
     [5] 1 0 7 [5] 1 [1, 2, 3, 4] 4 8 9 32).2.2.2.2.2.1
     (by decide) (by decide) (by decide) (by decide) (by decide) (by decide) (by decide)
     (by decide),
   by decide⟩

end OpensslPortRsa
